import Mathlib

/-!
Verification of the rustow core (GNU-Stow-like symlink farm manager).

The Rust sources under `src/` are shallowly embedded: Rust `&str` becomes
`List Char`, `PathBuf` becomes a list of path components, filesystem state
read by the planner becomes an explicit record of the `std::fs` primitives
the code calls, and the directory trees walked by the planner become an
inductive tree type.  Fallible Rust functions returning `Result` become
`Except`.
-/

/-- Characters of a Rust `&str`, modelled as a list of characters. -/
abbrev Str := List Char

/-- Turns a Lean string literal into the `Str` model. -/
def strL (s : String) : Str := s.data

/-- One component of a Rust `Path`, mirroring `std::path::Component`
(prefix components do not occur on unix). -/
inductive PComp where
  | rootDir
  | curDir
  | parentDir
  | normal (name : Str)
deriving DecidableEq, Repr

/-- A Rust `Path`/`PathBuf`, as its component list. -/
abbrev RPath := List PComp

/-- `Path::is_absolute` (unix: begins with the root component). -/
def pIsAbs (p : RPath) : Bool := p.head? = some PComp.rootDir

/-- `PathBuf::join`: pushing an absolute path replaces the receiver. -/
def pJoin (a b : RPath) : RPath := if pIsAbs b then b else a ++ b

/-- `Path::starts_with`: component-wise prefix test. -/
def pStarts (p pre : RPath) : Bool := pre.isPrefixOf p

/-- `Path::parent`: `None` for the root and the empty path, else the path
without its last component. -/
def pParent (p : RPath) : Option RPath :=
  if p = [] ∨ p = [PComp.rootDir] then none else some p.dropLast

/-- `Path::strip_prefix`, succeeding exactly when `pre` is a component
prefix. -/
def pStrip (pre p : RPath) : Option RPath :=
  if pre.isPrefixOf p then some (p.drop pre.length) else none

/-- `Path::file_name`: the final normal component. -/
def pFileName (p : RPath) : Option Str :=
  match p.getLast? with
  | some (PComp.normal n) => some n
  | _ => none

/-- Joining path fragments with `/` the way `Path::to_str` renders a
relative path (`["a","b"] ↦ "a/b"`). -/
def joinPathStr : List Str → Str
  | [] => []
  | [c] => c
  | c :: rest => c ++ '/' :: joinPathStr rest

/-- Rendering of one non-root component for display strings. -/
def compName : PComp → Str
  | PComp.rootDir => []
  | PComp.curDir => strL "."
  | PComp.parentDir => strL ".."
  | PComp.normal n => n

/-- `Path::to_string_lossy`: `/`-separated rendering, with a leading slash
for absolute paths. -/
def rPathStr (p : RPath) : Str :=
  match p with
  | PComp.rootDir :: rest => '/' :: joinPathStr (rest.map compName)
  | _ => joinPathStr (p.map compName)

/-- Splitting a string at `/` (keeping empty fragments). -/
def sSplit : Str → List Str
  | [] => [[]]
  | c :: rest =>
    match sSplit rest with
    | [] => [[]]
    | h :: t => if c = '/' then [] :: h :: t else (c :: h) :: t

/-- `PathBuf::from` on a relative string as produced by the dotfiles
rewrite: empty fragments are dropped and `.`/`..` become their component
forms (package-relative inputs here never start with `/`). -/
def strToRPath (s : Str) : RPath :=
  ((sSplit s).filter (fun c => c ≠ [])).map (fun c =>
    if c = strL "." then PComp.curDir
    else if c = strL ".." then PComp.parentDir
    else PComp.normal c)

/-- rustow `src/dotfiles.rs`, `process_item_name`: with the dotfiles policy
enabled, a name beginning with the four characters `dot-` has that prefix
replaced by `.`; anything else (and everything with the policy disabled)
is returned unchanged.  The function receives the package-relative path
rendered as a single string. -/
def process_item_name (item_name : Str) (is_dotfiles_enabled : Bool) : Str :=
  if is_dotfiles_enabled then
    if (strL "dot-").isPrefixOf item_name then '.' :: item_name.drop 4
    else item_name
  else item_name

/-- Modelled from the spec: the componentwise dotfile rewrite the spec
mandates, `rewrite(p) = join(rewrite(c) for c in components(p))`. -/
def rewrite_componentwise_spec (p : Str) (enabled : Bool) : Str :=
  joinPathStr ((sSplit p).map (fun c => process_item_name c enabled))

/-- A compiled regex, abstracted to its pattern text and its `is_match`
function (regex compilation happens at config time, outside the core). -/
structure RegexPat where
  text : Str
  isMatch : Str → Bool

/-- rustow `src/config.rs`, `StowMode`. -/
inductive StowMode where
  | stow
  | delete
  | restow
deriving DecidableEq, Repr

/-- rustow `src/config.rs`, `Config`. -/
structure Config where
  target_dir : RPath
  stow_dir : RPath
  packages : List Str
  mode : StowMode
  stow : Bool
  adopt : Bool
  no_folding : Bool
  dotfiles : Bool
  overrides : List RegexPat
  defers : List RegexPat
  ignore_patterns : List RegexPat
  simulate : Bool
  verbosity : Nat
  home_dir : RPath

/-- rustow `src/ignore.rs`, `IgnorePatterns`: the compiled pattern list of
the one active source. -/
structure IgnorePatterns where
  patterns : List RegexPat

/-- rustow `src/ignore.rs`, `is_ignored`: a pattern whose text contains `/`
is matched against the full `/`-prefixed path string; any other pattern is
matched against the basename and against every `Normal` component of the
path, except that a component match is discarded when that component is
the basename itself and the whole path consists of that single
component. -/
def is_ignored (item_package_relative_path : RPath) (item_basename : Str)
    (ignore_patterns : IgnorePatterns) : Bool :=
  let relative_path_str := rPathStr item_package_relative_path
  ignore_patterns.patterns.any fun pat =>
    if pat.text.contains '/' then pat.isMatch relative_path_str
    else
      pat.isMatch item_basename ||
      item_package_relative_path.any (fun comp =>
        match comp with
        | PComp.normal name =>
          pat.isMatch name &&
            !(name == item_basename &&
              pStrip [PComp.rootDir] item_package_relative_path
                == some [PComp.normal name])
        | _ => false)

/-- rustow `src/stow.rs`, `ActionType`. -/
inductive ActionType where
  | createSymlink
  | deleteSymlink
  | createDirectory
  | deleteDirectory
  | adoptFile
  | adoptDirectory
  | skip
  | conflict
deriving DecidableEq, Repr

/-- rustow `src/stow.rs`, `StowItemType`. -/
inductive StowItemType where
  | file
  | directory
  | symlink
deriving DecidableEq, Repr

/-- rustow `src/fs_utils.rs`, `RawStowItemType`. -/
inductive RawStowItemType where
  | file
  | directory
  | symlink
deriving DecidableEq, Repr

/-- rustow `src/fs_utils.rs`, `RawStowItem`. -/
structure RawStowItem where
  absolute_path : RPath
  package_relative_path : RPath
  item_type : RawStowItemType
deriving DecidableEq, Repr

/-- rustow `src/stow.rs`, `StowItem`. -/
structure StowItem where
  package_relative_path : RPath
  source_path : RPath
  item_type : StowItemType
  target_name_after_dotfiles_processing : RPath
deriving DecidableEq, Repr

/-- rustow `src/stow.rs`, `TargetAction` (conflict/skip message texts are
abbreviated from the source's `format!` strings; no theorem depends on
them). -/
structure TargetAction where
  source_item : Option StowItem
  target_path : RPath
  link_target_path : Option RPath
  action_type : ActionType
  conflict_details : Option Str
deriving DecidableEq, Repr

/-- Error kinds from `src/error.rs` that the embedded fragment can raise
(format payloads elided). -/
inductive RustowErr where
  | fsNotFound (p : RPath)
  | fsNotADirectory (p : RPath)
  | fsNotASymlink (p : RPath)
  | fsCanonicalize (p : RPath)
  | fsReadSymlink (p : RPath)
  | fsCreateSymlink (p : RPath)
  | fsCreateDirectory (p : RPath)
  | fsDeleteDirectory (p : RPath)
  | packageNotFound (name : Str)
  | invalidPackageStructure
  | ignoreLoadError
deriving DecidableEq, Repr

/-- Result of `std::fs::canonicalize`, distinguishing the `NotFound` error
kind the code inspects from every other error. -/
inductive CanonResult where
  | ok (p : RPath)
  | errNotFound
  | errOther
deriving DecidableEq, Repr

/-- The read-only `std::fs` primitives the planner consults, as an
explicit view of the on-disk state.  `exists_path` follows symlinks like
`Path::exists`; `is_symlink` does not; `is_directory` does. -/
structure FsView where
  exists_path : RPath → Bool
  is_symlink : RPath → Bool
  is_directory : RPath → Bool
  read_link : RPath → Option RPath
  canonicalize : RPath → CanonResult
  read_dir : RPath → Option (List RPath)

/-- rustow `src/fs_utils.rs`, `read_link`: `NotASymlink` when the path is
not a symlink (including non-existent), else the literal link body. -/
def fs_read_link (fsv : FsView) (path : RPath) : Except RustowErr RPath :=
  if !(fsv.is_symlink path) then .error (.fsNotASymlink path)
  else
    match fsv.read_link path with
    | some t => .ok t
    | none => .error (.fsReadSymlink path)

/-- rustow `src/fs_utils.rs`, `is_stow_symlink`: canonicalizes the stow
directory, reads the link, resolves the body against the link's parent,
canonicalizes (a broken link yields `none`), and when the canonical target
lies under the canonical stow directory splits off the first component as
the package name. -/
def is_stow_symlink (fsv : FsView) (link_path stow_dir : RPath) :
    Except RustowErr (Option (Str × RPath)) :=
  if !(fsv.is_symlink link_path) then .ok none
  else
    match fsv.canonicalize stow_dir with
    | CanonResult.errNotFound => .error (.fsCanonicalize stow_dir)
    | CanonResult.errOther => .error (.fsCanonicalize stow_dir)
    | CanonResult.ok canonical_stow_dir =>
      match fs_read_link fsv link_path with
      | .error (RustowErr.fsNotASymlink _) => .ok none
      | .error e => .error e
      | .ok target_dest =>
        let link_parent_dir := (pParent link_path).getD []
        let target_abs :=
          if pIsAbs target_dest then target_dest
          else pJoin link_parent_dir target_dest
        match fsv.canonicalize target_abs with
        | CanonResult.errNotFound => .ok none
        | CanonResult.errOther => .error (.fsCanonicalize target_abs)
        | CanonResult.ok canonical_target =>
          if !(pStarts canonical_target canonical_stow_dir) then .ok none
          else
            match pStrip canonical_stow_dir canonical_target with
            | none => .error .invalidPackageStructure
            | some rel =>
              match rel with
              | PComp.normal package_name :: rest => .ok (some (package_name, rest))
              | _ => .ok none

/-- rustow `src/stow.rs` `pattern_matcher::PatternMatcher::check_patterns`:
the target path is taken relative to the target root; defer patterns are
consulted first and win over override patterns. -/
def check_patterns (config : Config) (target_path_abs : RPath)
    (link_target : RPath) : Option (ActionType × Str × Option RPath) :=
  match pStrip config.target_dir target_path_abs with
  | none => none
  | some target_relative_path =>
    let target_path_str := rPathStr target_relative_path
    match config.defers.find? (fun pat => pat.isMatch target_path_str) with
    | some defer_pat =>
      some (ActionType.skip,
        strL "Deferred due to pattern match: " ++ defer_pat.text, none)
    | none =>
      match config.overrides.find? (fun pat => pat.isMatch target_path_str) with
      | some override_pat =>
        some (ActionType.createSymlink,
          strL "Overriding existing file due to pattern match: " ++ override_pat.text,
          some link_target)
      | none => none

/-- rustow `src/stow.rs`, `is_non_stow_entry`. -/
def is_non_stow_entry (fsv : FsView) (entry_path stow_dir : RPath) : Bool :=
  if !(fsv.is_symlink entry_path) then true
  else
    match is_stow_symlink fsv entry_path stow_dir with
    | .ok (some _) => false
    | _ => true

/-- rustow `src/stow.rs`, `check_directory_for_non_stow_files` (a read_dir
failure yields `Ok(false)` in the source). -/
def check_directory_for_non_stow_files (fsv : FsView) (target_path_abs : RPath)
    (config : Config) : Except RustowErr Bool :=
  match fsv.read_dir target_path_abs with
  | some entries =>
    .ok (entries.any (fun e => is_non_stow_entry fsv e config.stow_dir))
  | none => .ok false

/-- rustow `src/stow.rs`, `handle_directory_conflict`. -/
def handle_directory_conflict (fsv : FsView) (target_path_abs : RPath)
    (config : Config) : Except RustowErr (ActionType × Option Str × Option RPath) :=
  match check_directory_for_non_stow_files fsv target_path_abs config with
  | .error e => .error e
  | .ok true =>
    .ok (ActionType.conflict, some (strL "contains non-stow managed files"), none)
  | .ok false => .ok (ActionType.createDirectory, none, none)

/-- rustow `src/stow.rs`, `validate_stow_symlink`. -/
def validate_stow_symlink (fsv : FsView) (target_path_abs stow_dir : RPath) :
    Except RustowErr (Option (Str × RPath)) :=
  is_stow_symlink fsv target_path_abs stow_dir

/-- rustow `src/stow.rs`, `is_same_package_and_item`.  Note that the
source compares the existing link's package against
`config.packages.get(0)` — the first configured package — not against the
package currently being planned. -/
def is_same_package_and_item (existing_package_name : Str)
    (existing_item_path : RPath) (stow_item : StowItem) (config : Config) : Bool :=
  if existing_item_path = stow_item.package_relative_path then
    match config.packages.head? with
    | some current_package_name => existing_package_name == current_package_name
    | none => false
  else false

/-- rustow `src/stow.rs`, `handle_stow_package_conflict`. -/
def handle_stow_package_conflict (_stow_item : StowItem) (target_path_abs : RPath)
    (link_target_for_symlink : RPath) (config : Config) :
    Except RustowErr (ActionType × Option Str × Option RPath) :=
  match check_patterns config target_path_abs link_target_for_symlink with
  | some (action_type, message, link_target) => .ok (action_type, some message, link_target)
  | none =>
    .ok (ActionType.conflict, some (strL "is managed by another stow package"), none)

/-- rustow `src/stow.rs`, `check_file_directory_type_conflicts`. -/
def check_file_directory_type_conflicts (fsv : FsView) (stow_item : StowItem)
    (target_path_abs : RPath) : Option (ActionType × Str) :=
  if fsv.is_directory target_path_abs
      && !(stow_item.item_type == StowItemType.directory) then
    some (ActionType.conflict, strL "target is a directory")
  else if !(fsv.is_directory target_path_abs)
      && stow_item.item_type == StowItemType.directory then
    some (ActionType.conflict, strL "target is a file")
  else none

/-- rustow `src/stow.rs`, `handle_file_type_conflicts`: type conflicts,
then override/defer patterns, else an unconditional conflict.  The adopt
flag is never consulted here. -/
def handle_file_type_conflicts (fsv : FsView) (stow_item : StowItem)
    (target_path_abs : RPath) (link_target_for_symlink : RPath) (config : Config) :
    Except RustowErr (ActionType × Option Str × Option RPath) :=
  match check_file_directory_type_conflicts fsv stow_item target_path_abs with
  | some (action_type, message) => .ok (action_type, some message, none)
  | none =>
    match check_patterns config target_path_abs link_target_for_symlink with
    | some (action_type, message, link_target) =>
      .ok (action_type, some message, link_target)
    | none =>
      .ok (ActionType.conflict,
        some (strL "already exists and is not stow-managed"), none)

/-- rustow `src/stow.rs`, `handle_existing_symlink_conflict`. -/
def handle_existing_symlink_conflict (fsv : FsView) (stow_item : StowItem)
    (target_path_abs : RPath) (link_target_for_symlink : RPath) (config : Config) :
    Except RustowErr (ActionType × Option Str × Option RPath) :=
  match validate_stow_symlink fsv target_path_abs config.stow_dir with
  | .error e => .error e
  | .ok (some (existing_package_name, existing_item_path)) =>
    if is_same_package_and_item existing_package_name existing_item_path
        stow_item config then
      .ok (ActionType.skip,
        some (strL "Target already points to the same source"), none)
    else
      handle_stow_package_conflict stow_item target_path_abs
        link_target_for_symlink config
  | .ok none =>
    handle_file_type_conflicts fsv stow_item target_path_abs
      link_target_for_symlink config

/-- rustow `src/stow.rs`, `handle_existing_target_conflict`. -/
def handle_existing_target_conflict (fsv : FsView) (stow_item : StowItem)
    (target_path_abs : RPath) (link_target_for_symlink : RPath) (config : Config) :
    Except RustowErr (ActionType × Option Str × Option RPath) :=
  if fsv.is_directory target_path_abs
      && stow_item.item_type == StowItemType.directory then
    handle_directory_conflict fsv target_path_abs config
  else if fsv.is_symlink target_path_abs then
    handle_existing_symlink_conflict fsv stow_item target_path_abs
      link_target_for_symlink config
  else
    handle_file_type_conflicts fsv stow_item target_path_abs
      link_target_for_symlink config

/-- rustow `src/stow.rs`, `plan_stow_action_for_item`. -/
def plan_stow_action_for_item (fsv : FsView) (stow_item : StowItem)
    (target_path_abs : RPath) (link_target_for_symlink : RPath) (config : Config) :
    Except RustowErr TargetAction :=
  match
    (if fsv.exists_path target_path_abs then
      handle_existing_target_conflict fsv stow_item target_path_abs
        link_target_for_symlink config
    else
      .ok (match stow_item.item_type with
        | StowItemType.directory => (ActionType.createDirectory, none, none)
        | _ => (ActionType.createSymlink, none, some link_target_for_symlink))) with
  | .error e => .error e
  | .ok (action_type, conflict_details, final_link_target) =>
    .ok { source_item := some stow_item, target_path := target_path_abs,
          link_target_path := final_link_target, action_type := action_type,
          conflict_details := conflict_details }

/-- Longest-common-prefix remainder of two component lists (helper for
`diff_paths`). -/
def dropCommon : RPath → RPath → RPath × RPath
  | a :: as, b :: bs => if a = b then dropCommon as bs else (a :: as, b :: bs)
  | as, bs => (as, bs)

/-- The `pathdiff::diff_paths` dependency, modelled from the crate's
documented lexical behaviour: relative path from `base` to `path`. -/
def diff_paths (path base : RPath) : Option RPath :=
  if pIsAbs path && !(pIsAbs base) then some path
  else if !(pIsAbs path) && pIsAbs base then none
  else
    let (ptail, btail) := dropCommon path base
    some (List.replicate btail.length PComp.parentDir ++ ptail)

/-- rustow `src/stow.rs`, `calculate_link_target`: relative path from the
target's parent to the source, with the `../<stow basename>/<package>/…`
fallback. -/
def calculate_link_target (stow_item : StowItem) (target_path_abs : RPath)
    (config : Config) (package_name : Str) : RPath :=
  let relative_to_target_parent := (pParent target_path_abs).getD config.target_dir
  match diff_paths stow_item.source_path relative_to_target_parent with
  | some p => p
  | none =>
    [PComp.parentDir]
      ++ (match pFileName config.stow_dir with
          | some n => [PComp.normal n]
          | none => [])
      ++ [PComp.normal package_name]
      ++ stow_item.package_relative_path

/-- rustow `src/stow.rs`, `prepare_ignore_check_paths`. -/
def prepare_ignore_check_paths (processed_target_relative_path : RPath) :
    RPath × Str :=
  (pJoin [PComp.rootDir] processed_target_relative_path,
   (pFileName processed_target_relative_path).getD [])

/-- rustow `src/stow.rs`, `should_ignore_item`. -/
def should_ignore_item (processed_target_relative_path : RPath)
    (current_ignore_patterns : IgnorePatterns) : Bool :=
  let pair := prepare_ignore_check_paths processed_target_relative_path
  is_ignored pair.1 pair.2 current_ignore_patterns

/-- rustow `src/stow.rs`, `create_stow_item_from_raw`. -/
def create_stow_item_from_raw (raw_item : RawStowItem)
    (processed_target_relative_path : RPath) : StowItem :=
  { source_path := raw_item.absolute_path,
    package_relative_path := raw_item.package_relative_path,
    target_name_after_dotfiles_processing := processed_target_relative_path,
    item_type :=
      match raw_item.item_type with
      | RawStowItemType.file => StowItemType.file
      | RawStowItemType.directory => StowItemType.directory
      | RawStowItemType.symlink => StowItemType.symlink }

/-- rustow `src/stow.rs`, `process_item_for_stow`: dotfile rewrite of the
whole package-relative path string, ignore filter, target computation,
then per-item planning. -/
def process_item_for_stow (fsv : FsView) (raw_item : RawStowItem)
    (config : Config) (current_ignore_patterns : IgnorePatterns)
    (package_name : Str) : Except RustowErr (Option TargetAction) :=
  let processed_target_relative_path :=
    strToRPath (process_item_name (rPathStr raw_item.package_relative_path)
      config.dotfiles)
  if should_ignore_item processed_target_relative_path current_ignore_patterns then
    .ok none
  else
    let target_path_abs := pJoin config.target_dir processed_target_relative_path
    let stow_item := create_stow_item_from_raw raw_item processed_target_relative_path
    let link_target_for_symlink :=
      calculate_link_target stow_item target_path_abs config package_name
    match plan_stow_action_for_item fsv stow_item target_path_abs
        link_target_for_symlink config with
    | .error e => .error e
    | .ok action => .ok (some action)

mutual

/-- One on-disk entry of a walked tree: symlinks carry their literal link
body and are never descended into (matching `WalkDir` and the target-tree
scan). -/
inductive FsEnt where
  | file : FsEnt
  | symlink (body : RPath) : FsEnt
  | dir (sub : FsDir) : FsEnt

/-- Entries of one directory, in filesystem order. -/
inductive FsDir where
  | nil : FsDir
  | cons (name : Str) (ent : FsEnt) (rest : FsDir) : FsDir

end

/-- Pre-order walk below a package root (`WalkDir::new(root).min_depth(1)`,
directories before their contents, siblings in filesystem order),
producing the `RawStowItem`s of rustow `src/fs_utils.rs`,
`walk_package_dir`. -/
def walk_entries (package_path : RPath) (rel : RPath) : FsDir → List RawStowItem
  | FsDir.nil => []
  | FsDir.cons name ent rest =>
    let item_rel := rel ++ [PComp.normal name]
    let abs := package_path ++ item_rel
    (match ent with
     | FsEnt.file =>
       [{ absolute_path := abs, package_relative_path := item_rel,
          item_type := RawStowItemType.file }]
     | FsEnt.symlink _ =>
       [{ absolute_path := abs, package_relative_path := item_rel,
          item_type := RawStowItemType.symlink }]
     | FsEnt.dir sub =>
       { absolute_path := abs, package_relative_path := item_rel,
         item_type := RawStowItemType.directory }
         :: walk_entries package_path item_rel sub)
      ++ walk_entries package_path rel rest

/-- rustow `src/fs_utils.rs`, `walk_package_dir`: existence and
directory checks on the root, then the recursive walk (the root's on-disk
contents are the given tree). -/
def walk_package_dir (fsv : FsView) (package_path : RPath) (tree : FsDir) :
    Except RustowErr (List RawStowItem) :=
  if !(fsv.exists_path package_path) then .error (.fsNotFound package_path)
  else if !(fsv.is_directory package_path) then .error (.fsNotADirectory package_path)
  else .ok (walk_entries package_path [] tree)

/-- rustow `src/stow.rs`, `validate_package_path`. -/
def validate_package_path (fsv : FsView) (package_path : RPath)
    (package_name : Str) : Except RustowErr Unit :=
  if !(fsv.exists_path package_path) then .error (.packageNotFound package_name)
  else if !(fsv.is_directory package_path) then .error .invalidPackageStructure
  else .ok ()

/-- rustow `src/stow.rs`, `load_package_items`. -/
def load_package_items (fsv : FsView) (package_path : RPath) (tree : FsDir)
    (package_name : Str) : Except RustowErr (List RawStowItem) :=
  match walk_package_dir fsv package_path tree with
  | .ok items => .ok items
  | .error (RustowErr.fsNotFound _) => .error (.packageNotFound package_name)
  | .error e => .error e

/-- rustow `src/stow.rs`, `ParentConflictType`. -/
inductive ParentConflictType where
  | parentIsFile
  | parentIsConflictTarget
deriving DecidableEq, Repr

/-- rustow `src/stow.rs`, `ParentConflictInfo`. -/
structure ParentConflictInfo where
  conflict_type : ParentConflictType
  parent_path : RPath
deriving DecidableEq, Repr

/-- rustow `src/stow.rs`, `is_parent_target_of_conflict`. -/
def is_parent_target_of_conflict (parent_path : RPath)
    (all_actions : List TargetAction) : Bool :=
  all_actions.any (fun action =>
    action.target_path == parent_path
      && action.action_type == ActionType.conflict)

/-- rustow `src/stow.rs`, `check_parent_path_conflicts`. -/
def check_parent_path_conflicts (fsv : FsView) (parent_path : RPath)
    (all_actions : List TargetAction) : Option ParentConflictInfo :=
  if fsv.exists_path parent_path && !(fsv.is_directory parent_path) then
    some ⟨ParentConflictType.parentIsFile, parent_path⟩
  else if is_parent_target_of_conflict parent_path all_actions then
    some ⟨ParentConflictType.parentIsConflictTarget, parent_path⟩
  else none

/-- Ancestor-walking loop of rustow `src/stow.rs`, `find_parent_conflict`:
climbs from the given ancestor towards the root, stopping at the target
root or the first conflicting ancestor. -/
def find_parent_conflict_go (fsv : FsView) (config : Config)
    (all_actions : List TargetAction) (p : RPath) : Option ParentConflictInfo :=
  if !(pStarts p config.target_dir) || p = config.target_dir then none
  else
    match check_parent_path_conflicts fsv p all_actions with
    | some info => some info
    | none =>
      match h : pParent p with
      | none => none
      | some q => find_parent_conflict_go fsv config all_actions q
termination_by p.length
decreasing_by
  simp only [pParent] at h
  by_cases hp : p = [] ∨ p = [PComp.rootDir]
  · simp [hp] at h
  · simp only [hp, if_false] at h
    cases h
    have hne : p ≠ [] := fun hnil => hp (Or.inl hnil)
    have : p.dropLast.length < p.length := by
      rw [List.length_dropLast]
      exact Nat.sub_lt (List.length_pos.mpr hne) Nat.one_pos
    exact this

/-- rustow `src/stow.rs`, `find_parent_conflict`. -/
def find_parent_conflict (fsv : FsView) (action : TargetAction)
    (all_actions : List TargetAction) (config : Config) :
    Option ParentConflictInfo :=
  match pParent action.target_path with
  | none => none
  | some p => find_parent_conflict_go fsv config all_actions p

/-- rustow `src/stow.rs`, `apply_conflict_to_action` (with
`generate_conflict_message` inlined, messages abbreviated). -/
def apply_conflict_to_action (action : TargetAction)
    (info : ParentConflictInfo) : TargetAction :=
  { action with
    action_type := ActionType.conflict,
    link_target_path := none,
    conflict_details := some
      (match info.conflict_type with
       | ParentConflictType.parentIsFile => strL "Parent path is a file"
       | ParentConflictType.parentIsConflictTarget =>
         strL "Parent path is part of a conflicting item tree") }

/-- rustow `src/stow.rs`, `refine_actions_for_parent_conflicts`: first
collect `(index, info)` pairs for non-conflict actions with a conflicting
ancestor, then apply them (indices are distinct, so the in-place loop is a
per-index update). -/
def refine_actions_for_parent_conflicts (fsv : FsView)
    (actions : List TargetAction) (config : Config) : List TargetAction :=
  let conflicts_to_apply := actions.enum.filterMap (fun ia =>
    if ia.2.action_type = ActionType.conflict then none
    else (find_parent_conflict fsv ia.2 actions config).map (fun info => (ia.1, info)))
  actions.enum.map (fun ia =>
    match conflicts_to_apply.find? (fun u => u.1 == ia.1) with
    | some u => apply_conflict_to_action ia.2 u.2
    | none => ia.2)

/-- Traversal of rustow `src/stow.rs` `plan_actions`' item loop: run `f`
on every element, dropping `none` results and propagating errors. -/
def collect_some {α β : Type} (f : α → Except RustowErr (Option β)) :
    List α → Except RustowErr (List β)
  | [] => .ok []
  | x :: xs =>
    match f x with
    | .error e => .error e
    | .ok none => collect_some f xs
    | .ok (some b) =>
      match collect_some f xs with
      | .error e => .error e
      | .ok bs => .ok (b :: bs)

/-- The collaborators outside the planner's pure logic: the `std::fs` view,
the on-disk contents of each package directory (as walked by `WalkDir`),
and the contents of the target directory (as scanned by restow). -/
structure World where
  fsv : FsView
  package_tree : Str → FsDir
  target_tree : FsDir
  load_ignore : Str → Except RustowErr IgnorePatterns

/-- rustow `src/stow.rs`, `plan_actions`. -/
def plan_actions (w : World) (package_name : Str) (config : Config)
    (current_ignore_patterns : IgnorePatterns) :
    Except RustowErr (List TargetAction) :=
  let package_path := pJoin config.stow_dir [PComp.normal package_name]
  match validate_package_path w.fsv package_path package_name with
  | .error e => .error e
  | .ok _ =>
    match load_package_items w.fsv package_path (w.package_tree package_name)
        package_name with
    | .error e => .error e
    | .ok raw_items =>
      match collect_some (fun raw_item =>
          process_item_for_stow w.fsv raw_item config current_ignore_patterns
            package_name) raw_items with
      | .error e => .error e
      | .ok actions =>
        .ok (refine_actions_for_parent_conflicts w.fsv actions config)

/-- rustow `src/stow.rs` `conflict_resolver`: `mark_action_as_conflict`. -/
def mark_action_as_conflict (action : TargetAction) : TargetAction :=
  { action with
    action_type := ActionType.conflict,
    conflict_details :=
      match action.conflict_details with
      | some d => some d
      | none => some (strL "Inter-package conflict"),
    link_target_path := none }

/-- rustow `src/stow.rs` `conflict_resolver`: `build_target_map` followed
by `mark_conflicting_actions`, expressed pointwise — an action is marked
exactly when it was not already a conflict and shares its target path with
at least one other not-already-conflict action (the `HashMap` grouping
marks exactly these, in whatever order). -/
def resolve_inter_package_conflicts (actions : List TargetAction) :
    List TargetAction :=
  actions.map (fun a =>
    if !(a.action_type == ActionType.conflict)
        && decide (2 ≤ actions.countP (fun b =>
             !(b.action_type == ActionType.conflict)
               && b.target_path == a.target_path)) then
      mark_action_as_conflict a
    else a)

/-- rustow `src/stow.rs` `conflict_resolver::collect_parent_conflicts`
(the source builds a `HashSet`; only membership is used). -/
def collect_parent_conflicts (actions : List TargetAction) : List RPath :=
  (actions.filter (fun a => a.action_type == ActionType.conflict)).map
    (fun a => a.target_path)

/-- rustow `src/stow.rs`
`conflict_resolver::propagate_conflicts_to_children`: one pass over a
snapshot — every not-yet-conflicting action whose parent target path is a
conflict target is itself marked. -/
def propagate_conflicts_to_children (actions : List TargetAction) :
    List TargetAction :=
  let parent_conflicts := collect_parent_conflicts actions
  actions.map (fun a =>
    if a.action_type == ActionType.conflict then a
    else
      match pParent a.target_path with
      | some parent_target_path =>
        if parent_conflicts.contains parent_target_path then
          { a with action_type := ActionType.conflict,
                   conflict_details := some (strL "Parent path is in conflict"),
                   link_target_path := none }
        else a
      | none => a)

/-- rustow `src/stow.rs`, `apply_conflict_resolution` (the resolver's
`Config` parameter is unused by its logic). -/
def apply_conflict_resolution (actions : List TargetAction) :
    List TargetAction :=
  propagate_conflicts_to_children (resolve_inter_package_conflicts actions)

/-- rustow `src/stow.rs`, `create_skip_action_for_missing_target`. -/
def create_skip_action_for_missing_target (stow_item : StowItem)
    (target_path_abs : RPath) : TargetAction :=
  { source_item := some stow_item, target_path := target_path_abs,
    link_target_path := none, action_type := ActionType.skip,
    conflict_details := some (strL "Target does not exist, nothing to delete") }

/-- rustow `src/stow.rs`, `validate_target_for_deletion`. -/
def validate_target_for_deletion (fsv : FsView) (target_path_abs : RPath)
    (stow_item : StowItem) (config : Config) :
    Except RustowErr (ActionType × Option Str) :=
  if !(fsv.is_symlink target_path_abs) then
    .ok (ActionType.skip, some (strL "exists but is not a symlink"))
  else
    match is_stow_symlink fsv target_path_abs config.stow_dir with
    | .ok (some (_package_name, item_path_in_package)) =>
      if item_path_in_package = stow_item.package_relative_path then
        .ok (ActionType.deleteSymlink, none)
      else
        .ok (ActionType.skip, some (strL "belongs to different package item"))
    | .ok none =>
      .ok (ActionType.skip, some (strL "is not a stow-managed symlink"))
    | .error _ =>
      .ok (ActionType.conflict, some (strL "Error checking symlink"))

/-- rustow `src/stow.rs`, `determine_file_deletion_action`. -/
def determine_file_deletion_action (fsv : FsView) (stow_item : StowItem)
    (target_path_abs : RPath) (config : Config) :
    Except RustowErr (ActionType × Option Str) :=
  validate_target_for_deletion fsv target_path_abs stow_item config

/-- rustow `src/stow.rs`, `plan_deletion_for_existing_target`: a directory
item becomes `DeleteDirectory` unconditionally; files and symlinks consult
the stow-symlink classification. -/
def plan_deletion_for_existing_target (fsv : FsView) (stow_item : StowItem)
    (target_path_abs : RPath) (config : Config) :
    Except RustowErr TargetAction :=
  match
    (match stow_item.item_type with
     | StowItemType.directory =>
       Except.ok (ActionType.deleteDirectory, (none : Option Str))
     | _ => determine_file_deletion_action fsv stow_item target_path_abs config) with
  | .error e => .error e
  | .ok (action_type, conflict_details) =>
    .ok { source_item := some stow_item, target_path := target_path_abs,
          link_target_path := none, action_type := action_type,
          conflict_details := conflict_details }

/-- rustow `src/stow.rs`, `process_item_for_deletion`. -/
def process_item_for_deletion (fsv : FsView) (raw_item : RawStowItem)
    (config : Config) (current_ignore_patterns : IgnorePatterns) :
    Except RustowErr (Option TargetAction) :=
  let processed_target_relative_path :=
    strToRPath (process_item_name (rPathStr raw_item.package_relative_path)
      config.dotfiles)
  if should_ignore_item processed_target_relative_path current_ignore_patterns then
    .ok none
  else
    let target_path_abs := pJoin config.target_dir processed_target_relative_path
    let stow_item := create_stow_item_from_raw raw_item processed_target_relative_path
    if fsv.exists_path target_path_abs then
      match plan_deletion_for_existing_target fsv stow_item target_path_abs config with
      | .error e => .error e
      | .ok a => .ok (some a)
    else
      .ok (some (create_skip_action_for_missing_target stow_item target_path_abs))

/-- rustow `src/stow.rs`, `plan_delete_actions`: package items in traversal
order; the resulting deletion actions are not reordered. -/
def plan_delete_actions (w : World) (package_name : Str) (config : Config)
    (current_ignore_patterns : IgnorePatterns) :
    Except RustowErr (List TargetAction) :=
  let package_path := pJoin config.stow_dir [PComp.normal package_name]
  match validate_package_path w.fsv package_path package_name with
  | .error e => .error e
  | .ok _ =>
    match load_package_items w.fsv package_path (w.package_tree package_name)
        package_name with
    | .error e => .error e
    | .ok raw_items =>
      collect_some (fun raw_item =>
        process_item_for_deletion w.fsv raw_item config current_ignore_patterns)
        raw_items

/-- rustow `src/stow.rs`, `resolve_symlink_target`. -/
def resolve_symlink_target (symlink_path link_target : RPath) : RPath :=
  if pIsAbs link_target then link_target
  else pJoin ((pParent symlink_path).getD []) link_target

/-- rustow `src/stow.rs`, `normalize_path_components`: `..` pops the last
collected component (a pop on the empty collection is a no-op), `.` is
skipped, every other component — the root included — is pushed. -/
def normalize_path_components (path : RPath) : RPath :=
  path.foldl (fun acc comp =>
    match comp with
    | PComp.parentDir => acc.dropLast
    | PComp.curDir => acc
    | other => acc ++ [other]) []

/-- rustow `src/stow.rs`, `is_target_under_package_path_manual`. -/
def is_target_under_package_path_manual
    (resolved_target canonical_package_path : RPath) : Bool :=
  pStarts (normalize_path_components resolved_target) canonical_package_path

/-- rustow `src/stow.rs`, `should_delete_symlink`: canonical check when the
target exists, lexical normalization for broken links (the source wraps
the boolean in an always-`Ok` `Result`). -/
def should_delete_symlink (fsv : FsView)
    (resolved_target canonical_package_path : RPath) : Bool :=
  match fsv.canonicalize resolved_target with
  | CanonResult.ok canonical_target =>
    pStarts canonical_target canonical_package_path
  | _ => is_target_under_package_path_manual resolved_target canonical_package_path

/-- rustow `src/stow.rs`, `prepare_canonical_package_path`. -/
def prepare_canonical_package_path (fsv : FsView) (stow_dir : RPath)
    (package_name : Str) : Except RustowErr RPath :=
  let package_path := pJoin stow_dir [PComp.normal package_name]
  match fsv.canonicalize package_path with
  | CanonResult.ok p => .ok p
  | _ => .error (.fsCanonicalize package_path)

/-- rustow `src/stow.rs`, `create_delete_symlink_action`. -/
def create_delete_symlink_action (target_path : RPath) : TargetAction :=
  { source_item := none, target_path := target_path, link_target_path := none,
    action_type := ActionType.deleteSymlink, conflict_details := none }

/-- rustow `src/stow.rs`, `create_delete_directory_action`. -/
def create_delete_directory_action (target_path : RPath) : TargetAction :=
  { source_item := none, target_path := target_path, link_target_path := none,
    action_type := ActionType.deleteDirectory, conflict_details := none }

/-- rustow `src/stow.rs`, `process_symlink_for_deletion` (the link body,
read by `fs_utils::read_link` in the source, comes from the scanned tree
entry here). -/
def process_symlink_for_deletion (fsv : FsView) (symlink_path body : RPath)
    (stow_dir : RPath) (package_name : Str) :
    Except RustowErr (List TargetAction) :=
  let resolved_target := resolve_symlink_target symlink_path body
  match prepare_canonical_package_path fsv stow_dir package_name with
  | .error e => .error e
  | .ok canonical_package_path =>
    if should_delete_symlink fsv resolved_target canonical_package_path then
      .ok [create_delete_symlink_action symlink_path]
    else .ok []

/-- rustow `src/stow.rs`, `collect_stow_symlinks_for_package` together with
`process_directory_for_deletion`: entries of the target directory in
order; a symlink may contribute a `DeleteSymlink`, a directory is scanned
recursively and then contributes a speculative `DeleteDirectory`, plain
files contribute nothing.  The on-disk contents below `target_dir` are
`entries`. -/
def collect_stow_symlinks_for_package (fsv : FsView) (target_dir : RPath)
    (stow_dir : RPath) (package_name : Str) :
    FsDir → Except RustowErr (List TargetAction)
  | FsDir.nil => .ok []
  | FsDir.cons name ent rest =>
    let path := target_dir ++ [PComp.normal name]
    match ent with
    | FsEnt.file =>
      collect_stow_symlinks_for_package fsv target_dir stow_dir package_name rest
    | FsEnt.symlink body =>
      match process_symlink_for_deletion fsv path body stow_dir package_name with
      | .error e => .error e
      | .ok acts =>
        match collect_stow_symlinks_for_package fsv target_dir stow_dir
            package_name rest with
        | .error e => .error e
        | .ok others => .ok (acts ++ others)
    | FsEnt.dir sub =>
      match collect_stow_symlinks_for_package fsv path stow_dir
          package_name sub with
      | .error e => .error e
      | .ok inner =>
        match collect_stow_symlinks_for_package fsv target_dir stow_dir
            package_name rest with
        | .error e => .error e
        | .ok others =>
          .ok (inner ++ [create_delete_directory_action path] ++ others)

/-- Comparator of rustow `src/stow.rs`, `sort_deletion_actions`, as the
`≤` test "compare does not return Greater": only the pair
(`DeleteDirectory`, `DeleteSymlink`) compares strictly greater. -/
def deletion_le (a b : TargetAction) : Bool :=
  !(a.action_type == ActionType.deleteDirectory
      && b.action_type == ActionType.deleteSymlink)

/-- Stable insertion step of the modelled `Vec::sort_by`. -/
def stableInsert (le : TargetAction → TargetAction → Bool) (x : TargetAction) :
    List TargetAction → List TargetAction
  | [] => [x]
  | y :: ys => if le x y then x :: y :: ys else y :: stableInsert le x ys

/-- `Vec::sort_by` is a stable sort; modelled as stable insertion sort
(for the two-class comparator above any stable sort yields this result). -/
def sortByStable (le : TargetAction → TargetAction → Bool) :
    List TargetAction → List TargetAction
  | [] => []
  | x :: xs => stableInsert le x (sortByStable le xs)

/-- rustow `src/stow.rs`, `sort_deletion_actions`. -/
def sort_deletion_actions (actions : List TargetAction) : List TargetAction :=
  sortByStable deletion_le actions

/-- rustow `src/stow.rs`, `plan_restow_delete_actions`: package existence
check, target-tree scan, then symlink-before-directory sorting.  Nothing
here reads the package's current contents. -/
def plan_restow_delete_actions (w : World) (package_name : Str)
    (config : Config) : Except RustowErr (List TargetAction) :=
  let package_path := pJoin config.stow_dir [PComp.normal package_name]
  if !(w.fsv.exists_path package_path) then
    .error (.packageNotFound package_name)
  else
    match collect_stow_symlinks_for_package w.fsv config.target_dir
        config.stow_dir package_name w.target_tree with
    | .error e => .error e
    | .ok actions => .ok (sort_deletion_actions actions)

/-- A node of the mutable filesystem the Executor acts on. -/
inductive FsNode where
  | file
  | dir
  | symlink (body : RPath)
deriving DecidableEq, Repr

/-- Executor filesystem state: association list from absolute path to
node (first binding wins). -/
abbrev FsM := List (RPath × FsNode)

/-- Node stored at a path, if any. -/
def mLookup (fs : FsM) (p : RPath) : Option FsNode :=
  (fs.find? (fun e => e.1 == p)).map (fun e => e.2)

/-- `Path::is_symlink` on the executor state (no following). -/
def mIsSymlink (fs : FsM) (p : RPath) : Bool :=
  match mLookup fs p with
  | some (FsNode.symlink _) => true
  | _ => false

/-- Symlink-following core of `Path::exists`, with fuel bounding chain
length by the number of entries. -/
def mExistsGo (fs : FsM) : Nat → RPath → Bool
  | 0, _ => false
  | fuel + 1, p =>
    match mLookup fs p with
    | none => false
    | some (FsNode.symlink body) =>
      mExistsGo fs fuel (resolve_symlink_target p body)
    | some _ => true

/-- `Path::exists` (follows symlinks; a broken link does not exist). -/
def mExists (fs : FsM) (p : RPath) : Bool := mExistsGo fs (fs.length + 1) p

/-- Symlink-following core of `Path::is_dir`. -/
def mIsDirGo (fs : FsM) : Nat → RPath → Bool
  | 0, _ => false
  | fuel + 1, p =>
    match mLookup fs p with
    | some FsNode.dir => true
    | some (FsNode.symlink body) =>
      mIsDirGo fs fuel (resolve_symlink_target p body)
    | _ => false

/-- `Path::is_dir` (follows symlinks). -/
def mIsDirectory (fs : FsM) (p : RPath) : Bool := mIsDirGo fs (fs.length + 1) p

/-- Removal of one binding (`std::fs::remove_file` / `remove_dir`). -/
def mRemove (fs : FsM) (p : RPath) : FsM := fs.filter (fun e => !(e.1 == p))

/-- Immediate children of a directory, as `std::fs::read_dir` lists
them. -/
def mChildren (fs : FsM) (p : RPath) : List RPath :=
  (fs.filter (fun e =>
    e.1.length == p.length + 1 && p.isPrefixOf e.1)).map (fun e => e.1)

/-- rustow `src/fs_utils.rs`, `delete_symlink`: `NotFound` when the path
does not exist at all, `NotASymlink` when something that is not a symlink
is there, else the link is removed. -/
def fs_delete_symlink (fs : FsM) (p : RPath) : Except RustowErr FsM :=
  if !(mIsSymlink fs p) then
    if !(mExists fs p) then .error (.fsNotFound p)
    else .error (.fsNotASymlink p)
  else .ok (mRemove fs p)

/-- `std::fs::create_dir_all` as wrapped by rustow `create_dir_all`:
creates every missing directory along the path; fails when a
non-directory occupies a position on the way. -/
def mCreateDirAllGo (fs : FsM) (done : RPath) :
    RPath → Except RustowErr FsM
  | [] => .ok fs
  | c :: rest =>
    let q := done ++ [c]
    match mLookup fs q with
    | some FsNode.dir => mCreateDirAllGo fs q rest
    | none => mCreateDirAllGo ((q, FsNode.dir) :: fs) q rest
    | some _ => .error (.fsCreateDirectory q)

/-- rustow `src/fs_utils.rs`, `create_dir_all`. -/
def fs_create_dir_all (fs : FsM) (p : RPath) : Except RustowErr FsM :=
  mCreateDirAllGo fs [] p

/-- rustow `src/fs_utils.rs`, `create_symlink`: writes the literal link
body; fails when the link path is occupied or its parent directory is
missing. -/
def fs_create_symlink (fs : FsM) (link_path target_path : RPath) :
    Except RustowErr FsM :=
  if (mLookup fs link_path).isSome then .error (.fsCreateSymlink link_path)
  else
    match pParent link_path with
    | some parent =>
      if mIsDirectory fs parent then
        .ok ((link_path, FsNode.symlink target_path) :: fs)
      else .error (.fsCreateSymlink link_path)
    | none => .error (.fsCreateSymlink link_path)

/-- rustow `src/fs_utils.rs`, `delete_empty_dir`. -/
def fs_delete_empty_dir (fs : FsM) (p : RPath) : Except RustowErr FsM :=
  if mIsSymlink fs p then .error (.fsNotADirectory p)
  else if !(mExists fs p) then .error (.fsNotFound p)
  else if !(mIsDirectory fs p) then .error (.fsNotADirectory p)
  else if !(mChildren fs p).isEmpty then .error (.fsDeleteDirectory p)
  else .ok (mRemove fs p)

/-- rustow `src/stow.rs`, `is_directory_empty` (a `read_dir` failure maps
to `InvalidPackageStructure`). -/
def is_directory_empty (fs : FsM) (dir_path : RPath) : Except RustowErr Bool :=
  if mIsDirectory fs dir_path then .ok ((mChildren fs dir_path).isEmpty)
  else .error .invalidPackageStructure

/-- rustow `src/stow.rs`, `TargetActionReportStatus`. -/
inductive TargetActionReportStatus where
  | success
  | skipped
  | conflictPrevented
  | failure (msg : Str)
deriving DecidableEq, Repr

/-- rustow `src/stow.rs`, `TargetActionReport` (messages abbreviated). -/
structure TargetActionReport where
  original_action : TargetAction
  status : TargetActionReportStatus
  message : Option Str
deriving DecidableEq, Repr

/-- Rendering of an error for `Failure(e.to_string())` (abbreviated). -/
def errStr : RustowErr → Str
  | .fsNotFound _ => strL "NotFound"
  | .fsNotADirectory _ => strL "NotADirectory"
  | .fsNotASymlink _ => strL "NotASymlink"
  | .fsCanonicalize _ => strL "Canonicalize"
  | .fsReadSymlink _ => strL "ReadSymlink"
  | .fsCreateSymlink _ => strL "CreateSymlink"
  | .fsCreateDirectory _ => strL "CreateDirectory"
  | .fsDeleteDirectory _ => strL "DeleteDirectory"
  | .packageNotFound _ => strL "PackageNotFound"
  | .invalidPackageStructure => strL "InvalidPackageStructure"
  | .ignoreLoadError => strL "IgnoreLoadError"

/-- rustow `src/stow.rs`, `execute_conflict_action`. -/
def execute_conflict_action (action : TargetAction) : TargetActionReport :=
  { original_action := action, status := TargetActionReportStatus.conflictPrevented,
    message := some (strL "CONFLICT: Operation prevented") }

/-- rustow `src/stow.rs`, `execute_create_directory_action`. -/
def execute_create_directory_action (action : TargetAction) (fs : FsM) :
    TargetActionReport × FsM :=
  match fs_create_dir_all fs action.target_path with
  | .ok fs2 =>
    ({ original_action := action, status := TargetActionReportStatus.success,
       message := some (strL "Successfully created directory") }, fs2)
  | .error e =>
    ({ original_action := action, status := TargetActionReportStatus.failure (errStr e),
       message := some (strL "Failed to create directory") }, fs)

/-- rustow `src/stow.rs`, `ensure_parent_directory_exists`. -/
def ensure_parent_directory_exists (action : TargetAction) (fs : FsM) :
    Option TargetActionReport × FsM :=
  match pParent action.target_path with
  | some parent_dir =>
    if !(mExists fs parent_dir) then
      match fs_create_dir_all fs parent_dir with
      | .ok fs2 => (none, fs2)
      | .error e =>
        (some { original_action := action,
                status := TargetActionReportStatus.failure (errStr e),
                message := some (strL "Failed to create parent directory") }, fs)
    else (none, fs)
  | none => (none, fs)

/-- rustow `src/stow.rs`, `remove_existing_target`: an existing symlink is
deleted, any other existing target is a failure. -/
def remove_existing_target (action : TargetAction) (fs : FsM) :
    Option TargetActionReport × FsM :=
  if mExists fs action.target_path then
    if mIsSymlink fs action.target_path then
      match fs_delete_symlink fs action.target_path with
      | .ok fs2 => (none, fs2)
      | .error e =>
        (some { original_action := action,
                status := TargetActionReportStatus.failure (errStr e),
                message := some (strL "Failed to remove existing symlink") }, fs)
    else
      (some { original_action := action,
              status := TargetActionReportStatus.failure
                (strL "Target exists and is not a symlink - cannot override"),
              message := some (strL "cannot override") }, fs)
  else (none, fs)

/-- rustow `src/stow.rs`, `create_symlink_with_target`. -/
def create_symlink_with_target (action : TargetAction) (link_target : RPath)
    (fs : FsM) : TargetActionReport × FsM :=
  match fs_create_symlink fs action.target_path link_target with
  | .ok fs2 =>
    ({ original_action := action, status := TargetActionReportStatus.success,
       message := some (strL "Successfully created symlink") }, fs2)
  | .error e =>
    ({ original_action := action, status := TargetActionReportStatus.failure (errStr e),
       message := some (strL "Failed to create symlink") }, fs)

/-- rustow `src/stow.rs`, `execute_create_symlink_action`. -/
def execute_create_symlink_action (action : TargetAction) (fs : FsM) :
    TargetActionReport × FsM :=
  match ensure_parent_directory_exists action fs with
  | (some report, fs2) => (report, fs2)
  | (none, fs2) =>
    match action.link_target_path with
    | some link_target =>
      match remove_existing_target action fs2 with
      | (some report, fs3) => (report, fs3)
      | (none, fs3) => create_symlink_with_target action link_target fs3
    | none =>
      ({ original_action := action,
         status := TargetActionReportStatus.failure
           (strL "CreateSymlink action missing link_target_path"),
         message := some (strL "missing link_target_path") }, fs2)

/-- rustow `src/stow.rs`, `execute_delete_symlink_action`: `Success`
exactly when `delete_symlink` succeeds; every error — including `NotFound`
for an already-absent target — becomes a `Failure` report. -/
def execute_delete_symlink_action (action : TargetAction) (fs : FsM) :
    TargetActionReport × FsM :=
  match fs_delete_symlink fs action.target_path with
  | .ok fs2 =>
    ({ original_action := action, status := TargetActionReportStatus.success,
       message := some (strL "Successfully deleted symlink") }, fs2)
  | .error e =>
    ({ original_action := action, status := TargetActionReportStatus.failure (errStr e),
       message := some (strL "Failed to delete symlink") }, fs)

/-- rustow `src/stow.rs`, `check_directory_exists_for_deletion`. -/
def check_directory_exists_for_deletion (action : TargetAction) (fs : FsM) :
    Option TargetActionReport :=
  if !(mExists fs action.target_path) then
    some { original_action := action, status := TargetActionReportStatus.skipped,
           message := some (strL "does not exist, skipping deletion") }
  else none

/-- rustow `src/stow.rs`, `validate_directory_empty_for_deletion`. -/
def validate_directory_empty_for_deletion (action : TargetAction) (fs : FsM) :
    Except TargetActionReport Bool :=
  match is_directory_empty fs action.target_path with
  | .ok b => .ok b
  | .error e =>
    .error { original_action := action,
             status := TargetActionReportStatus.failure (errStr e),
             message := some (strL "Failed to check if directory is empty") }

/-- rustow `src/stow.rs`, `perform_directory_deletion`. -/
def perform_directory_deletion (action : TargetAction) (fs : FsM) :
    TargetActionReport × FsM :=
  match fs_delete_empty_dir fs action.target_path with
  | .ok fs2 =>
    ({ original_action := action, status := TargetActionReportStatus.success,
       message := some (strL "Successfully deleted empty directory") }, fs2)
  | .error e =>
    ({ original_action := action, status := TargetActionReportStatus.failure (errStr e),
       message := some (strL "Failed to delete directory") }, fs)

/-- rustow `src/stow.rs`, `execute_delete_directory_action`: absent target
and non-empty directory are both `Skipped`. -/
def execute_delete_directory_action (action : TargetAction) (fs : FsM) :
    TargetActionReport × FsM :=
  match check_directory_exists_for_deletion action fs with
  | some skip_report => (skip_report, fs)
  | none =>
    match validate_directory_empty_for_deletion action fs with
    | .ok true => perform_directory_deletion action fs
    | .ok false =>
      ({ original_action := action, status := TargetActionReportStatus.skipped,
         message := some (strL "not empty") }, fs)
    | .error error_report => (error_report, fs)

/-- rustow `src/stow.rs`, `execute_skip_action`. -/
def execute_skip_action (action : TargetAction) : TargetActionReport :=
  { original_action := action, status := TargetActionReportStatus.skipped,
    message :=
      match action.conflict_details with
      | some d => some d
      | none => some (strL "Action skipped") }

/-- rustow `src/stow.rs`, `create_unimplemented_action_report`: the
catch-all for action kinds the executor does not implement (`AdoptFile`
and `AdoptDirectory`), reported as `Skipped` with no mutation. -/
def create_unimplemented_action_report (action : TargetAction) :
    TargetActionReport :=
  { original_action := action, status := TargetActionReportStatus.skipped,
    message := some (strL "not yet implemented") }

/-- rustow `src/stow.rs`, `execute_real_action`. -/
def execute_real_action (action : TargetAction) (fs : FsM) :
    TargetActionReport × FsM :=
  match action.action_type with
  | ActionType.conflict => (execute_conflict_action action, fs)
  | ActionType.createDirectory => execute_create_directory_action action fs
  | ActionType.createSymlink => execute_create_symlink_action action fs
  | ActionType.deleteSymlink => execute_delete_symlink_action action fs
  | ActionType.deleteDirectory => execute_delete_directory_action action fs
  | ActionType.skip => (execute_skip_action action, fs)
  | _ => (create_unimplemented_action_report action, fs)

/-- rustow `src/stow.rs`, `execute_simulate_action`. -/
def execute_simulate_action (action : TargetAction) : TargetActionReport :=
  { original_action := action, status := TargetActionReportStatus.skipped,
    message := some (strL "SIMULATE: Would perform action") }

/-- rustow `src/stow.rs`, `execute_actions`: one report per action, in
plan order; the simulate branch never touches the filesystem (the source
wraps the vector in an always-`Ok` `Result`). -/
def execute_actions (actions : List TargetAction) (config : Config) (fs : FsM) :
    List TargetActionReport × FsM :=
  match actions with
  | [] => ([], fs)
  | action :: rest =>
    let step :=
      if config.simulate then (execute_simulate_action action, fs)
      else execute_real_action action fs
    let next := execute_actions rest config step.2
    (step.1 :: next.1, next.2)

/-- rustow `src/stow.rs`, `load_ignore_patterns_for_package` (pattern
loading reads ignore files and compiles regexes, both outside the core;
the per-package outcome is part of the `World`). -/
def load_ignore_patterns_for_package (w : World) (package_name : Str) :
    Except RustowErr IgnorePatterns :=
  match w.load_ignore package_name with
  | .ok pats => .ok pats
  | .error _ => .error .ignoreLoadError

/-- Per-package loop of rustow `src/stow.rs`, `collect_package_actions`. -/
def collect_package_actions_go (w : World) (config : Config)
    (action_planner :
      World → Str → Config → IgnorePatterns → Except RustowErr (List TargetAction)) :
    List Str → Except RustowErr (List TargetAction)
  | [] => .ok []
  | package_name :: rest =>
    match load_ignore_patterns_for_package w package_name with
    | .error e => .error e
    | .ok ignore_pats =>
      match action_planner w package_name config ignore_pats with
      | .error e => .error e
      | .ok package_actions =>
        match collect_package_actions_go w config action_planner rest with
        | .error e => .error e
        | .ok others => .ok (package_actions ++ others)

/-- rustow `src/stow.rs`, `collect_package_actions`: the empty package
list short-circuits to an empty plan before anything is loaded. -/
def collect_package_actions (w : World) (config : Config)
    (action_planner :
      World → Str → Config → IgnorePatterns → Except RustowErr (List TargetAction)) :
    Except RustowErr (List TargetAction) :=
  if config.packages.isEmpty then .ok []
  else collect_package_actions_go w config action_planner config.packages

/-- rustow `src/stow.rs`, `stow_packages`: empty-package short-circuit,
per-package planning, conflict resolution, execution. -/
def stow_packages (w : World) (config : Config) (fs : FsM) :
    Except RustowErr (List TargetActionReport × FsM) :=
  if config.packages.isEmpty then .ok ([], fs)
  else
    match collect_package_actions w config plan_actions with
    | .error e => .error e
    | .ok all_planned_actions =>
      .ok (execute_actions (apply_conflict_resolution all_planned_actions) config fs)

/-- rustow `src/stow.rs`, `delete_packages`: empty-package short-circuit,
per-package delete planning, execution (no reordering). -/
def delete_packages (w : World) (config : Config) (fs : FsM) :
    Except RustowErr (List TargetActionReport × FsM) :=
  if config.packages.isEmpty then .ok ([], fs)
  else
    match collect_package_actions w config plan_delete_actions with
    | .error e => .error e
    | .ok all_planned_actions =>
      .ok (execute_actions all_planned_actions config fs)

/-- Modelled from the spec (C3): the target-tree symlinks, in scan order,
whose resolved target — canonical when canonicalization succeeds, lexically
normalized when the link is broken — lies under the canonical package
directory. -/
def claimed_symlink_deletions (fsv : FsView) (cwd cpkg : RPath) :
    FsDir → List RPath
  | FsDir.nil => []
  | FsDir.cons name ent rest =>
    let path := cwd ++ [PComp.normal name]
    match ent with
    | FsEnt.file => claimed_symlink_deletions fsv cwd cpkg rest
    | FsEnt.symlink body =>
      (if (match fsv.canonicalize (resolve_symlink_target path body) with
           | CanonResult.ok c => pStarts c cpkg
           | _ => pStarts
               (normalize_path_components (resolve_symlink_target path body)) cpkg)
       then [path] else [])
        ++ claimed_symlink_deletions fsv cwd cpkg rest
    | FsEnt.dir sub =>
      claimed_symlink_deletions fsv path cpkg sub
        ++ claimed_symlink_deletions fsv cwd cpkg rest

/-- Modelled from the spec (C3): every directory the target scan visits,
subdirectories before the directory itself. -/
def claimed_dirs_visited (cwd : RPath) : FsDir → List RPath
  | FsDir.nil => []
  | FsDir.cons name ent rest =>
    let path := cwd ++ [PComp.normal name]
    match ent with
    | FsEnt.dir sub =>
      claimed_dirs_visited path sub ++ [path] ++ claimed_dirs_visited cwd rest
    | _ => claimed_dirs_visited cwd rest

/-- Stated from the claim (C4): every `DeleteSymlink` action is scheduled
strictly before every `DeleteDirectory` action. -/
def symsPrecedeDirs (actions : List TargetAction) : Prop :=
  List.Pairwise (fun a b =>
    ¬(a.action_type = ActionType.deleteDirectory
        ∧ b.action_type = ActionType.deleteSymlink)) actions

/-- Neutral configuration record for concrete scenarios. -/
def baseCfg : Config :=
  { target_dir := [], stow_dir := [], packages := [], mode := StowMode.stow,
    stow := false, adopt := false, no_folding := false, dotfiles := false,
    overrides := [], defers := [], ignore_patterns := [], simulate := false,
    verbosity := 0, home_dir := [] }

/-- Adopt scenario (spec E6): target root `/t`. -/
def adoptTargetDir : RPath := [PComp.rootDir, PComp.normal (strL "t")]

/-- Adopt scenario: stow root `/s`. -/
def adoptStowDir : RPath := [PComp.rootDir, PComp.normal (strL "s")]

/-- Adopt scenario: the colliding target file `/t/config.txt`. -/
def adoptTargetFile : RPath := adoptTargetDir ++ [PComp.normal (strL "config.txt")]

/-- Adopt scenario: configuration with the adopt policy enabled. -/
def adoptCfg : Config :=
  { baseCfg with
    target_dir := adoptTargetDir,
    stow_dir := adoptStowDir,
    packages := [strL "pkg"],
    adopt := true }

/-- Adopt scenario: on-disk state — `/t/config.txt` is a plain file. -/
def adoptFsv : FsView :=
  { exists_path := fun p => p == adoptTargetFile,
    is_symlink := fun _ => false,
    is_directory := fun _ => false,
    read_link := fun _ => none,
    canonicalize := fun _ => CanonResult.errNotFound,
    read_dir := fun _ => none }

/-- Adopt scenario: the package item `pkg/config.txt`. -/
def adoptItem : StowItem :=
  { package_relative_path := [PComp.normal (strL "config.txt")],
    source_path :=
      adoptStowDir ++ [PComp.normal (strL "pkg"), PComp.normal (strL "config.txt")],
    item_type := StowItemType.file,
    target_name_after_dotfiles_processing := [PComp.normal (strL "config.txt")] }

/-- Adopt scenario: an `AdoptFile` action, as the spec says the planner
should emit for the collision. -/
def adoptAction : TargetAction :=
  { source_item := some adoptItem, target_path := adoptTargetFile,
    link_target_path := some [PComp.parentDir],
    action_type := ActionType.adoptFile, conflict_details := none }

/-- Same-package scenario (C5): target root `/t`. -/
def c5TargetDir : RPath := [PComp.rootDir, PComp.normal (strL "t")]

/-- Same-package scenario: stow root `/s`. -/
def c5StowDir : RPath := [PComp.rootDir, PComp.normal (strL "s")]

/-- Same-package scenario: the target file `/t/f`. -/
def c5TargetFile : RPath := c5TargetDir ++ [PComp.normal (strL "f")]

/-- Same-package scenario: link body `../s/p2/f`. -/
def c5LinkBody : RPath :=
  [PComp.parentDir, PComp.normal (strL "s"), PComp.normal (strL "p2"),
   PComp.normal (strL "f")]

/-- Same-package scenario: the body resolved against the link's parent. -/
def c5Resolved : RPath := c5TargetDir ++ c5LinkBody

/-- Same-package scenario: canonical form `/s/p2/f` of the resolved
target. -/
def c5Canon : RPath :=
  c5StowDir ++ [PComp.normal (strL "p2"), PComp.normal (strL "f")]

/-- Same-package scenario: on-disk state — `/t/f` is a symlink whose
canonical target is `/s/p2/f`, i.e. item `f` of package `p2`. -/
def c5Fsv : FsView :=
  { exists_path := fun p => p == c5TargetFile,
    is_symlink := fun p => p == c5TargetFile,
    is_directory := fun _ => false,
    read_link := fun p => if p == c5TargetFile then some c5LinkBody else none,
    canonicalize := fun p =>
      if p == c5StowDir then CanonResult.ok c5StowDir
      else if p == c5Resolved then CanonResult.ok c5Canon
      else CanonResult.errNotFound,
    read_dir := fun _ => none }

/-- Same-package scenario: two packages, `p2` is being planned second. -/
def c5Cfg : Config :=
  { baseCfg with
    target_dir := c5TargetDir,
    stow_dir := c5StowDir,
    packages := [strL "p1", strL "p2"] }

/-- Same-package scenario: item `f` of the package `p2` being planned. -/
def c5Item : StowItem :=
  { package_relative_path := [PComp.normal (strL "f")],
    source_path := c5Canon,
    item_type := StowItemType.file,
    target_name_after_dotfiles_processing := [PComp.normal (strL "f")] }

/-- Defer/override scenario (C6 witness): a matcher for `file`. -/
def c6Pat : RegexPat := { text := strL "file$", isMatch := fun s => s == strL "file" }

/-- Defer/override scenario: both a defer and an override pattern match
(spec E5). -/
def c6Cfg : Config :=
  { baseCfg with
    target_dir := [PComp.rootDir, PComp.normal (strL "t")],
    overrides := [c6Pat],
    defers := [c6Pat] }

/-- Defer/override scenario: the colliding target `/t/file`. -/
def c6Target : RPath :=
  [PComp.rootDir, PComp.normal (strL "t"), PComp.normal (strL "file")]

/-- Override-only scenario (C6 witness): only the override matches. -/
def c6CfgOverrideOnly : Config :=
  { baseCfg with
    target_dir := [PComp.rootDir, PComp.normal (strL "t")],
    overrides := [c6Pat],
    defers := [] }

/-- Delete-symlink scenario (C7): the planned deletion of `/t/x`. -/
def c7Action : TargetAction :=
  create_delete_symlink_action
    [PComp.rootDir, PComp.normal (strL "t"), PComp.normal (strL "x")]

/-- Delete-symlink scenario: state in which `/t/x` is present as a
symlink. -/
def c7FsPresent : FsM :=
  [([PComp.rootDir, PComp.normal (strL "t"), PComp.normal (strL "x")],
    FsNode.symlink [PComp.parentDir])]

/-- Ignore scenario (C8 witness): a matcher behaving like the default
`\.git` pattern on exact names. -/
def gitPat : RegexPat := { text := strL "\\.git", isMatch := fun s => s == strL ".git" }

/-- Empty world (C10 witness): nothing on disk, no ignore patterns. -/
def emptyWorld : World :=
  { fsv :=
      { exists_path := fun _ => false, is_symlink := fun _ => false,
        is_directory := fun _ => false, read_link := fun _ => none,
        canonicalize := fun _ => CanonResult.errNotFound,
        read_dir := fun _ => none },
    package_tree := fun _ => FsDir.nil,
    target_tree := FsDir.nil,
    load_ignore := fun _ => .ok ⟨[]⟩ }

/-- Test for a `DeleteSymlink` action. -/
def isDelSym (a : TargetAction) : Bool :=
  a.action_type == ActionType.deleteSymlink

/-- Test for a `DeleteDirectory` action. -/
def isDelDir (a : TargetAction) : Bool :=
  a.action_type == ActionType.deleteDirectory

/-- Restow/delete scenario (C3/C4): stow root `/s`. -/
def c4StowDir : RPath := [PComp.rootDir, PComp.normal (strL "s")]

/-- Restow/delete scenario: target root `/t`. -/
def c4TargetDir : RPath := [PComp.rootDir, PComp.normal (strL "t")]

/-- Restow/delete scenario: the package directory `/s/pkg`. -/
def c4PkgPath : RPath := c4StowDir ++ [PComp.normal (strL "pkg")]

/-- Restow/delete scenario: the target directory `/t/d`. -/
def c4TD : RPath := c4TargetDir ++ [PComp.normal (strL "d")]

/-- Restow/delete scenario: the target symlink `/t/d/f`. -/
def c4TDF : RPath := c4TD ++ [PComp.normal (strL "f")]

/-- Restow/delete scenario: link body `../../s/pkg/d/f`. -/
def c4Body : RPath :=
  [PComp.parentDir, PComp.parentDir, PComp.normal (strL "s"),
   PComp.normal (strL "pkg"), PComp.normal (strL "d"), PComp.normal (strL "f")]

/-- Restow/delete scenario: the body resolved against `/t/d`. -/
def c4Resolved : RPath := c4TD ++ c4Body

/-- Restow/delete scenario: canonical form `/s/pkg/d/f`. -/
def c4CanonF : RPath :=
  c4PkgPath ++ [PComp.normal (strL "d"), PComp.normal (strL "f")]

/-- Restow/delete scenario: on-disk view — package dir and `/t/d` are
directories, `/t/d/f` is a stow symlink of package `pkg`. -/
def c4Fsv : FsView :=
  { exists_path := fun p => p == c4PkgPath || p == c4TD || p == c4TDF,
    is_symlink := fun p => p == c4TDF,
    is_directory := fun p => p == c4PkgPath || p == c4TD,
    read_link := fun p => if p == c4TDF then some c4Body else none,
    canonicalize := fun p =>
      if p == c4StowDir then CanonResult.ok c4StowDir
      else if p == c4PkgPath then CanonResult.ok c4PkgPath
      else if p == c4Resolved then CanonResult.ok c4CanonF
      else CanonResult.errNotFound,
    read_dir := fun _ => none }

/-- Restow/delete scenario: package contents `d/f`. -/
def c4PkgTree : FsDir :=
  FsDir.cons (strL "d")
    (FsEnt.dir (FsDir.cons (strL "f") FsEnt.file FsDir.nil)) FsDir.nil

/-- Restow/delete scenario: target contents — directory `d` holding the
stow symlink `f`. -/
def c4TgtTree : FsDir :=
  FsDir.cons (strL "d")
    (FsEnt.dir (FsDir.cons (strL "f") (FsEnt.symlink c4Body) FsDir.nil))
    FsDir.nil

/-- Restow/delete scenario: the world combining the pieces. -/
def c4World : World :=
  { fsv := c4Fsv,
    package_tree := fun _ => c4PkgTree,
    target_tree := c4TgtTree,
    load_ignore := fun _ => .ok ⟨[]⟩ }

/-- Restow/delete scenario: configuration stowing `pkg` from `/s` into
`/t`. -/
def c4Cfg : Config :=
  { baseCfg with
    target_dir := c4TargetDir,
    stow_dir := c4StowDir,
    packages := [strL "pkg"] }

/-! Theorems. -/

theorem isPrefixOf_append_slash (p : Str) (hp : '/' ∉ p) :
    ∀ (c t : Str), p.isPrefixOf (c ++ '/' :: t) = p.isPrefixOf c := by
  induction p with
  | nil => intro c t; simp [List.isPrefixOf]
  | cons a p' ih =>
    intro c t
    cases c with
    | nil =>
      simp only [List.nil_append, List.isPrefixOf]
      have ha : a ≠ '/' := fun h => hp (h ▸ List.mem_cons_self a p')
      simp [List.isPrefixOf, ha]
    | cons b c' =>
      simp only [List.cons_append, List.isPrefixOf]
      have hp' : '/' ∉ p' := fun h => hp (List.mem_cons_of_mem a h)
      have := ih hp' c' t
      simp only [List.append_eq] at this ⊢
      rw [this]

theorem joinPathStr_cons_cons (c0 c1 : Str) (cs : List Str) :
    joinPathStr (c0 :: c1 :: cs) = c0 ++ '/' :: joinPathStr (c1 :: cs) := rfl

/-- C1 counterexample: the dotfile rewrite implemented by
`process_item_name` is applied to the package-relative path as one string,
so only a leading `dot-` of the very first component is rewritten; the
spec's componentwise rewrite differs on `dot-config/dot-nvim/init.vim`. -/
theorem c1_componentwise_counterexample :
    process_item_name (strL "dot-config/dot-nvim/init.vim") true
        = strL ".config/dot-nvim/init.vim"
      ∧ rewrite_componentwise_spec (strL "dot-config/dot-nvim/init.vim") true
        = strL ".config/.nvim/init.vim"
      ∧ process_item_name (strL "dot-config/dot-nvim/init.vim") true
        ≠ rewrite_componentwise_spec (strL "dot-config/dot-nvim/init.vim") true := by
  refine ⟨by decide, by decide, by decide⟩

/-- C1 (amended): with the dotfiles policy enabled the rewrite acts on the
joined path string, which is the same as rewriting only the first
component and leaving every later component unchanged. -/
theorem c1_dotfile_rewrite_first_component_only (c0 : Str) (cs : List Str) :
    process_item_name (joinPathStr (c0 :: cs)) true
      = joinPathStr (process_item_name c0 true :: cs) := by
  cases cs with
  | nil => rfl
  | cons c1 rest =>
    rw [joinPathStr_cons_cons, joinPathStr_cons_cons]
    unfold process_item_name
    have hns : '/' ∉ strL "dot-" := by decide
    rw [isPrefixOf_append_slash (strL "dot-") hns c0 (joinPathStr (c1 :: rest))]
    by_cases h : (strL "dot-").isPrefixOf c0 = true
    · have hlen : (strL "dot-").length ≤ c0.length := by
        have := (List.isPrefixOf_iff_prefix).mp h
        exact this.length_le
      simp only [h, if_true]
      rw [List.drop_append_of_le_length (by simpa using hlen)]
      rfl
    · simp only [Bool.not_eq_true] at h
      simp [h]

/-- C2: contrary to the spec, the planner never emits `AdoptFile` — in the
E6 scenario (adopt enabled, plain file `/t/config.txt` colliding with
`pkg/config.txt`) the planned action is `Conflict`; and the executor
treats an `AdoptFile` action as unimplemented, reporting `Skipped` and
mutating nothing. -/
theorem c2_adopt_unimplemented :
    (plan_stow_action_for_item adoptFsv adoptItem adoptTargetFile
        [PComp.parentDir] adoptCfg).map (fun a => a.action_type)
      = Except.ok ActionType.conflict
    ∧ (execute_real_action adoptAction []).1.status
        = TargetActionReportStatus.skipped
    ∧ (execute_real_action adoptAction []).2 = ([] : FsM) := by
  refine ⟨rfl, by decide, by decide⟩

/-- C5: with packages `[p1, p2]`, a target symlink that already resolves
to item `f` of package `p2` is planned as `Conflict`, not `Skip`, because
`is_same_package_and_item` compares against the first configured package
only — it even accepts `p1` (a different package) as "the same". -/
theorem c5_second_package_not_skipped :
    (plan_stow_action_for_item c5Fsv c5Item c5TargetFile [PComp.parentDir]
        c5Cfg).map (fun a => a.action_type) = Except.ok ActionType.conflict
    ∧ is_same_package_and_item (strL "p2") [PComp.normal (strL "f")] c5Item c5Cfg
        = false
    ∧ is_same_package_and_item (strL "p1") [PComp.normal (strL "f")] c5Item c5Cfg
        = true := by
  refine ⟨rfl, by decide, by decide⟩

/-- C7 counterexample: deleting a symlink whose target path is already
absent is reported as `Failure(NotFound)`, not as `Skipped`. -/
theorem c7_absent_failure_counterexample :
    (execute_delete_symlink_action c7Action []).1.status
        ≠ TargetActionReportStatus.skipped
    ∧ (execute_delete_symlink_action c7Action []).1.status
        = TargetActionReportStatus.failure (strL "NotFound") := by
  refine ⟨by decide, by decide⟩

/-- C7 (amended): a `DeleteSymlink` action on an absent path yields a
`Failure(NotFound)` report and leaves the state unchanged; on an existing
symlink the link is removed and the report is `Success`. -/
theorem c7_delete_symlink_report (a : TargetAction) (fs : FsM) :
    (mIsSymlink fs a.target_path = false → mExists fs a.target_path = false →
      execute_delete_symlink_action a fs
        = ({ original_action := a,
             status := TargetActionReportStatus.failure (strL "NotFound"),
             message := some (strL "Failed to delete symlink") }, fs))
    ∧ (mIsSymlink fs a.target_path = true →
      execute_delete_symlink_action a fs
        = ({ original_action := a,
             status := TargetActionReportStatus.success,
             message := some (strL "Successfully deleted symlink") },
           mRemove fs a.target_path)) := by
  constructor
  · intro h1 h2
    simp [execute_delete_symlink_action, fs_delete_symlink, h1, h2, errStr]
  · intro h1
    simp [execute_delete_symlink_action, fs_delete_symlink, h1]

/-- C7 witness: both branches of the amended theorem at concrete states —
`/t/x` absent in the empty state, present as a symlink in the other. -/
theorem c7_delete_symlink_report_witness :
    (execute_delete_symlink_action c7Action []).1.status
        = TargetActionReportStatus.failure (strL "NotFound")
    ∧ (execute_delete_symlink_action c7Action c7FsPresent).1.status
        = TargetActionReportStatus.success := by
  constructor
  · rw [(c7_delete_symlink_report c7Action []).1 (by decide) (by decide)]
  · rw [(c7_delete_symlink_report c7Action c7FsPresent).2 (by decide)]

/-- C10: with an empty package list both `stow_packages` and
`delete_packages` return `Ok` with no reports and an unchanged filesystem
state, for every world (so nothing is loaded or inspected). -/
theorem c10_empty_package_list (w : World) (config : Config) (fs : FsM)
    (h : config.packages = []) :
    stow_packages w config fs = .ok ([], fs)
      ∧ delete_packages w config fs = .ok ([], fs) := by
  constructor <;> simp [stow_packages, delete_packages, h]

/-- C10 witness: the empty-package configuration on the empty world. -/
theorem c10_empty_package_list_witness :
    stow_packages emptyWorld baseCfg [] = .ok ([], [])
      ∧ delete_packages emptyWorld baseCfg [] = .ok ([], []) :=
  c10_empty_package_list emptyWorld baseCfg [] rfl

/-- C6: during override/defer resolution, any matching defer pattern
forces `Skip` (defer wins even when an override also matches), and only
when no defer matches and some override matches is the action
`CreateSymlink`. -/
theorem c6_defer_wins_over_override (config : Config)
    (target_path_abs link_target rel : RPath)
    (hstrip : pStrip config.target_dir target_path_abs = some rel) :
    ((∃ d ∈ config.defers, d.isMatch (rPathStr rel) = true) →
      ∃ m, check_patterns config target_path_abs link_target
        = some (ActionType.skip, m, none))
    ∧ ((∀ d ∈ config.defers, d.isMatch (rPathStr rel) = false) →
       (∃ o ∈ config.overrides, o.isMatch (rPathStr rel) = true) →
      ∃ m, check_patterns config target_path_abs link_target
        = some (ActionType.createSymlink, m, some link_target)) := by
  unfold check_patterns
  simp only [hstrip]
  constructor
  · rintro ⟨d, hd, hm⟩
    have hs : (config.defers.find? (fun pat => pat.isMatch (rPathStr rel))).isSome :=
      List.find?_isSome.mpr ⟨d, hd, hm⟩
    obtain ⟨d', hd'⟩ := Option.isSome_iff_exists.mp hs
    simp only [hd']
    exact ⟨_, rfl⟩
  · rintro hall ⟨o, ho, hom⟩
    have hn : config.defers.find? (fun pat => pat.isMatch (rPathStr rel)) = none :=
      List.find?_eq_none.mpr (fun d hd => by simp [hall d hd])
    have hs : (config.overrides.find? (fun pat => pat.isMatch (rPathStr rel))).isSome :=
      List.find?_isSome.mpr ⟨o, ho, hom⟩
    obtain ⟨o', ho'⟩ := Option.isSome_iff_exists.mp hs
    simp only [hn, ho']
    exact ⟨_, rfl⟩

/-- C6 witness: with both a defer and an override pattern matching
`file` the result is `Skip`; with only the override matching it is
`CreateSymlink` (spec E4/E5). -/
theorem c6_defer_wins_witness :
    (∃ m, check_patterns c6Cfg c6Target [PComp.parentDir]
        = some (ActionType.skip, m, none))
    ∧ (∃ m, check_patterns c6CfgOverrideOnly c6Target [PComp.parentDir]
        = some (ActionType.createSymlink, m, some [PComp.parentDir])) := by
  constructor
  · exact (c6_defer_wins_over_override c6Cfg c6Target [PComp.parentDir]
      [PComp.normal (strL "file")] (by decide)).1
      ⟨c6Pat, by simp [c6Cfg], by decide⟩
  · exact (c6_defer_wins_over_override c6CfgOverrideOnly c6Target [PComp.parentDir]
      [PComp.normal (strL "file")] (by decide)).2
      (by simp [c6CfgOverrideOnly]) ⟨c6Pat, by simp [c6CfgOverrideOnly], by decide⟩

/-- C8: for a basename pattern (no `/` in its text), `is_ignored` on a
path `/c₁/…/cₙ/b` with basename `b` holds exactly when the pattern matches
the basename or some parent component; for a single-component path only
the direct basename check decides (the parent pass contributes nothing
there, so the formula below specializes to the basename check). -/
theorem c8_basename_pattern (pat : RegexPat) (cs : List Str) (b : Str)
    (hslash : pat.text.contains '/' = false) :
    is_ignored (PComp.rootDir :: (cs.map PComp.normal ++ [PComp.normal b])) b
        ⟨[pat]⟩
      = (pat.isMatch b || cs.any pat.isMatch) := by
  unfold is_ignored
  simp only [List.any_cons, List.any_nil, Bool.or_false]
  have hcond : ¬((pat.text.contains '/') = true) := by
    simp only [hslash]
    exact Bool.false_ne_true
  rw [if_neg hcond]
  cases hb : pat.isMatch b with
  | true => simp [hb]
  | false =>
    simp only [hb, Bool.false_or]
    rw [Bool.eq_iff_iff]
    constructor
    · intro hany
      obtain ⟨x, hx, hgx⟩ := List.any_eq_true.mp hany
      rcases List.mem_append.mp hx with hmap | hlast
      · obtain ⟨c, hc, rfl⟩ := List.mem_map.mp hmap
        apply List.any_eq_true.mpr
        refine ⟨c, hc, ?_⟩
        simp only [Bool.and_eq_true] at hgx
        exact hgx.1
      · have hxb : x = PComp.normal b := by simpa using hlast
        subst hxb
        simp [hb] at hgx
    · intro hcs
      obtain ⟨c, hc, hmc⟩ := List.any_eq_true.mp hcs
      apply List.any_eq_true.mpr
      refine ⟨PComp.normal c, ?_, ?_⟩
      · exact List.mem_append_left _ (List.mem_map_of_mem _ hc)
      · have hne : (cs.map PComp.normal ++ [PComp.normal b]) ≠ [PComp.normal c] := by
          intro hEq
          have hlen := congrArg List.length hEq
          simp only [List.length_append, List.length_map, List.length_cons,
            List.length_nil] at hlen
          have hnil : cs = [] := List.length_eq_zero.mp (by omega)
          subst hnil
          simp at hc
        simp [hmc, pStrip, List.isPrefixOf, hne]

/-- C8 witness: the `\.git`-like basename pattern ignores `/.git/config`
through its parent component. -/
theorem c8_basename_pattern_witness :
    is_ignored
        (PComp.rootDir ::
          ([strL ".git"].map PComp.normal ++ [PComp.normal (strL "config")]))
        (strL "config") ⟨[gitPat]⟩ = true := by
  rw [c8_basename_pattern gitPat [strL ".git"] (strL "config") (by decide)]
  decide

theorem execute_real_action_original (a : TargetAction) (fs : FsM) :
    ((execute_real_action a fs).1).original_action = a := by
  unfold execute_real_action execute_conflict_action
    execute_create_directory_action execute_create_symlink_action
    ensure_parent_directory_exists remove_existing_target
    create_symlink_with_target execute_delete_symlink_action
    execute_delete_directory_action check_directory_exists_for_deletion
    validate_directory_empty_for_deletion perform_directory_deletion
    execute_skip_action create_unimplemented_action_report
  repeat' split
  all_goals try rfl
  all_goals (rename_i heq; repeat' split at heq)
  all_goals try simp_all
  all_goals first
    | exact (congrArg TargetActionReport.original_action heq.1).symm
    | exact (congrArg TargetActionReport.original_action heq).symm

theorem execute_actions_map_original (actions : List TargetAction)
    (config : Config) (fs : FsM) :
    ((execute_actions actions config fs).1).map
      (fun rep => rep.original_action) = actions := by
  induction actions generalizing fs with
  | nil => rfl
  | cons a rest ih =>
    by_cases hs : config.simulate
    · simp [execute_actions, hs, execute_simulate_action, ih]
    · simp [execute_actions, hs, execute_real_action_original, ih]

theorem execute_actions_simulate_frame (actions : List TargetAction)
    (config : Config) (fs : FsM) (hsim : config.simulate = true) :
    (execute_actions actions config fs).2 = fs
    ∧ ∀ rep ∈ (execute_actions actions config fs).1,
        rep.status = TargetActionReportStatus.skipped := by
  induction actions generalizing fs with
  | nil => exact ⟨rfl, by simp [execute_actions]⟩
  | cons a rest ih =>
    simp only [execute_actions, hsim, if_true]
    constructor
    · exact (ih fs).1
    · intro rep hrep
      rcases List.mem_cons.mp hrep with hfst | hrest
      · subst hfst; rfl
      · exact (ih fs).2 rep hrest

/-- C9: with simulate on, executing any plan leaves the filesystem state
untouched, reports `Skipped` for every action, and produces one report per
planned action in plan order — the same count and structure (the sequence
of reported original actions) as a non-simulated run of the same plan. -/
theorem c9_simulate_no_mutation (actions : List TargetAction)
    (config config2 : Config) (fs fs2 : FsM) (hsim : config.simulate = true) :
    (execute_actions actions config fs).2 = fs
    ∧ ((execute_actions actions config fs).1).length = actions.length
    ∧ (∀ rep ∈ (execute_actions actions config fs).1,
        rep.status = TargetActionReportStatus.skipped)
    ∧ ((execute_actions actions config fs).1).map
        (fun rep => rep.original_action) = actions
    ∧ ((execute_actions actions config2 fs2).1).map
        (fun rep => rep.original_action) = actions := by
  refine ⟨(execute_actions_simulate_frame actions config fs hsim).1, ?_,
    (execute_actions_simulate_frame actions config fs hsim).2,
    execute_actions_map_original actions config fs,
    execute_actions_map_original actions config2 fs2⟩
  have := congrArg List.length (execute_actions_map_original actions config fs)
  simpa using this

/-- C9 witness: a one-action plan under a simulating configuration versus
a non-simulating one. -/
theorem c9_simulate_no_mutation_witness :
    (execute_actions [c7Action] { baseCfg with simulate := true } c7FsPresent).2
        = c7FsPresent
    ∧ ((execute_actions [c7Action] { baseCfg with simulate := true }
        c7FsPresent).1).map (fun rep => rep.original_action) = [c7Action]
    ∧ ((execute_actions [c7Action] baseCfg c7FsPresent).1).map
        (fun rep => rep.original_action) = [c7Action] := by
  have h := c9_simulate_no_mutation [c7Action] { baseCfg with simulate := true }
    baseCfg c7FsPresent c7FsPresent rfl
  exact ⟨h.1, h.2.2.2.1, h.2.2.2.2⟩

theorem delSym_not_dir (a : TargetAction) (h : isDelSym a = true) :
    isDelDir a = false := by
  unfold isDelSym at h
  unfold isDelDir
  rw [beq_iff_eq] at h
  simp [h]

theorem delDir_not_sym (a : TargetAction) (h : isDelDir a = true) :
    isDelSym a = false := by
  unfold isDelDir at h
  unfold isDelSym
  rw [beq_iff_eq] at h
  simp [h]

theorem deletion_le_of_sym (a b : TargetAction) (h : isDelSym a = true) :
    deletion_le a b = true := by
  have ha : a.action_type = ActionType.deleteSymlink := by
    unfold isDelSym at h
    exact beq_iff_eq.mp h
  unfold deletion_le
  simp [ha]

theorem deletion_le_of_dir_snd (a b : TargetAction) (h : isDelDir b = true) :
    deletion_le a b = true := by
  have hb : b.action_type = ActionType.deleteDirectory := by
    unfold isDelDir at h
    exact beq_iff_eq.mp h
  unfold deletion_le
  simp [hb]

theorem deletion_le_dir_sym (a b : TargetAction) (ha : isDelDir a = true)
    (hb : isDelSym b = true) : deletion_le a b = false := by
  unfold isDelDir at ha
  unfold isDelSym at hb
  unfold deletion_le
  simp [ha, hb]

theorem stableInsert_sym (a : TargetAction) (h : isDelSym a = true)
    (xs : List TargetAction) : stableInsert deletion_le a xs = a :: xs := by
  cases xs with
  | nil => rfl
  | cons y ys =>
    unfold stableInsert
    rw [deletion_le_of_sym a y h]
    simp

theorem stableInsert_dir (a : TargetAction) (ha : isDelDir a = true) :
    ∀ (ss ds : List TargetAction), (∀ x ∈ ss, isDelSym x = true) →
      (∀ x ∈ ds, isDelDir x = true) →
      stableInsert deletion_le a (ss ++ ds) = ss ++ a :: ds
  | [], ds, _, hds => by
    cases ds with
    | nil => rfl
    | cons y ys =>
      simp only [List.nil_append]
      unfold stableInsert
      rw [deletion_le_of_dir_snd a y (hds y (List.mem_cons_self y ys))]
      simp
  | s :: ss, ds, hss, hds => by
    have hle : deletion_le a s = false :=
      deletion_le_dir_sym a s ha (hss s (List.mem_cons_self s ss))
    simp only [List.cons_append]
    unfold stableInsert
    rw [hle]
    simp only [Bool.false_eq_true, if_false]
    rw [stableInsert_dir a ha ss ds
      (fun x hx => hss x (List.mem_cons_of_mem s hx)) hds]

theorem sortByStable_sym_dir :
    ∀ (l : List TargetAction), (∀ x ∈ l, (isDelSym x || isDelDir x) = true) →
      sortByStable deletion_le l
        = l.filter (fun a => isDelSym a) ++ l.filter (fun a => isDelDir a)
  | [], _ => rfl
  | a :: l, hall => by
    have ih := sortByStable_sym_dir l
      (fun x hx => hall x (List.mem_cons_of_mem a hx))
    unfold sortByStable
    rw [ih]
    rcases Bool.or_eq_true_iff.mp (hall a (List.mem_cons_self a l)) with hs | hd
    · rw [stableInsert_sym a hs]
      have hnd := delSym_not_dir a hs
      simp [List.filter_cons, hs, hnd]
    · have hns := delDir_not_sym a hd
      rw [stableInsert_dir a hd (l.filter fun a => isDelSym a)
        (l.filter fun a => isDelDir a)
        (fun x hx => (List.mem_filter.mp hx).2)
        (fun x hx => (List.mem_filter.mp hx).2)]
      simp [List.filter_cons, hd, hns]

theorem should_delete_spec_cond (fsv : FsView) (resolved cpkg : RPath) :
    (match fsv.canonicalize resolved with
     | CanonResult.ok c => pStarts c cpkg
     | _ => pStarts (normalize_path_components resolved) cpkg)
      = should_delete_symlink fsv resolved cpkg := by
  unfold should_delete_symlink is_target_under_package_path_manual
  cases fsv.canonicalize resolved <;> rfl

theorem process_symlink_eq (fsv : FsView) (stow_dir : RPath) (pkg : Str)
    (cpkg : RPath)
    (hc : fsv.canonicalize (pJoin stow_dir [PComp.normal pkg])
      = CanonResult.ok cpkg) (path body : RPath) :
    process_symlink_for_deletion fsv path body stow_dir pkg
      = Except.ok
          (if should_delete_symlink fsv (resolve_symlink_target path body) cpkg
           then [create_delete_symlink_action path] else []) := by
  unfold process_symlink_for_deletion prepare_canonical_package_path
  simp only [hc]
  split <;> rfl

theorem collect_spec (fsv : FsView) (stow_dir : RPath) (pkg : Str)
    (cpkg : RPath)
    (hc : fsv.canonicalize (pJoin stow_dir [PComp.normal pkg])
      = CanonResult.ok cpkg) :
    ∀ (cwd : RPath) (d : FsDir),
      ∃ acts,
        collect_stow_symlinks_for_package fsv cwd stow_dir pkg d = Except.ok acts
        ∧ acts.filter (fun a => isDelSym a)
            = (claimed_symlink_deletions fsv cwd cpkg d).map
                create_delete_symlink_action
        ∧ acts.filter (fun a => isDelDir a)
            = (claimed_dirs_visited cwd d).map create_delete_directory_action
        ∧ ∀ a ∈ acts, (isDelSym a || isDelDir a) = true
  | cwd, FsDir.nil =>
    ⟨[], rfl, by simp [claimed_symlink_deletions],
      by simp [claimed_dirs_visited], by simp⟩
  | cwd, FsDir.cons name FsEnt.file rest => by
    obtain ⟨acts, h1, h2, h3, h4⟩ := collect_spec fsv stow_dir pkg cpkg hc cwd rest
    refine ⟨acts, ?_, ?_, ?_, h4⟩
    · simpa [collect_stow_symlinks_for_package] using h1
    · simpa [claimed_symlink_deletions] using h2
    · simpa [claimed_dirs_visited] using h3
  | cwd, FsDir.cons name (FsEnt.symlink body) rest => by
    obtain ⟨acts, h1, h2, h3, h4⟩ := collect_spec fsv stow_dir pkg cpkg hc cwd rest
    refine ⟨(if should_delete_symlink fsv
          (resolve_symlink_target (cwd ++ [PComp.normal name]) body) cpkg
        then [create_delete_symlink_action (cwd ++ [PComp.normal name])]
        else []) ++ acts, ?_, ?_, ?_, ?_⟩
    · simp only [collect_stow_symlinks_for_package,
        process_symlink_eq fsv stow_dir pkg cpkg hc, h1]
    · rw [List.filter_append, h2]
      simp only [claimed_symlink_deletions]
      rw [should_delete_spec_cond]
      by_cases hsd : should_delete_symlink fsv
          (resolve_symlink_target (cwd ++ [PComp.normal name]) body) cpkg = true
      · simp [hsd, isDelSym, create_delete_symlink_action]
      · simp only [Bool.not_eq_true] at hsd
        simp [hsd]
    · rw [List.filter_append, h3]
      simp only [claimed_dirs_visited]
      split
      · simp [isDelDir, create_delete_symlink_action]
      · simp
    · intro a ha
      rcases List.mem_append.mp ha with hl | hr
      · split at hl
        · have : a = create_delete_symlink_action (cwd ++ [PComp.normal name]) := by
            simpa using hl
          subst this
          simp [isDelSym, create_delete_symlink_action]
        · simp at hl
      · exact h4 a hr
  | cwd, FsDir.cons name (FsEnt.dir sub) rest => by
    obtain ⟨inner, g1, g2, g3, g4⟩ :=
      collect_spec fsv stow_dir pkg cpkg hc (cwd ++ [PComp.normal name]) sub
    obtain ⟨others, h1, h2, h3, h4⟩ := collect_spec fsv stow_dir pkg cpkg hc cwd rest
    refine ⟨inner
        ++ [create_delete_directory_action (cwd ++ [PComp.normal name])]
        ++ others, ?_, ?_, ?_, ?_⟩
    · simp only [collect_stow_symlinks_for_package, g1, h1]
    · rw [List.filter_append, List.filter_append, g2, h2]
      simp [claimed_symlink_deletions, isDelSym, create_delete_directory_action]
    · rw [List.filter_append, List.filter_append, g3, h3]
      simp [claimed_dirs_visited, isDelDir, create_delete_directory_action]
    · intro a ha
      rcases List.mem_append.mp ha with hl | hr
      · rcases List.mem_append.mp hl with hi | hd
        · exact g4 a hi
        · have : a = create_delete_directory_action (cwd ++ [PComp.normal name]) := by
            simpa using hd
          subst this
          simp [isDelDir, create_delete_directory_action]
      · exact h4 a hr

theorem plan_restow_char (w : World) (package_name : Str) (config : Config)
    (cpkg : RPath)
    (hex : w.fsv.exists_path (pJoin config.stow_dir [PComp.normal package_name])
      = true)
    (hc : w.fsv.canonicalize (pJoin config.stow_dir [PComp.normal package_name])
      = CanonResult.ok cpkg) :
    plan_restow_delete_actions w package_name config
      = Except.ok
          ((claimed_symlink_deletions w.fsv config.target_dir cpkg
              w.target_tree).map create_delete_symlink_action
            ++ (claimed_dirs_visited config.target_dir w.target_tree).map
              create_delete_directory_action) := by
  obtain ⟨acts, h1, h2, h3, h4⟩ :=
    collect_spec w.fsv config.stow_dir package_name cpkg hc
      config.target_dir w.target_tree
  unfold plan_restow_delete_actions
  simp only [hex, Bool.not_true, Bool.false_eq_true, if_false, h1]
  unfold sort_deletion_actions
  rw [sortByStable_sym_dir acts h4, h2, h3]

/-- C3: the restow deletion plan is computed from the installed target
tree alone — it equals the `DeleteSymlink`s for exactly those scanned
symlinks whose resolved (canonical, or lexically normalized when broken)
target lies under the canonical package directory, followed by the
speculative `DeleteDirectory`s for every directory visited; and it is
unchanged under any replacement of the package's current contents, so a
file removed from the package still has its installed symlink deleted. -/
theorem c3_restow_deletes_installed_state (w : World) (package_name : Str)
    (config : Config) (cpkg : RPath)
    (hex : w.fsv.exists_path (pJoin config.stow_dir [PComp.normal package_name])
      = true)
    (hc : w.fsv.canonicalize (pJoin config.stow_dir [PComp.normal package_name])
      = CanonResult.ok cpkg) :
    plan_restow_delete_actions w package_name config
      = Except.ok
          ((claimed_symlink_deletions w.fsv config.target_dir cpkg
              w.target_tree).map create_delete_symlink_action
            ++ (claimed_dirs_visited config.target_dir w.target_tree).map
              create_delete_directory_action)
    ∧ ∀ (pt : Str → FsDir),
        plan_restow_delete_actions { w with package_tree := pt }
            package_name config
          = plan_restow_delete_actions w package_name config :=
  ⟨plan_restow_char w package_name config cpkg hex hc, fun _ => rfl⟩

/-- C3 witness: the E7-style world — `/t/d/f` links to `pkg/d/f` — yields
exactly the symlink deletion then the speculative directory deletion. -/
theorem c3_restow_deletes_installed_state_witness :
    plan_restow_delete_actions c4World (strL "pkg") c4Cfg
      = Except.ok [create_delete_symlink_action c4TDF,
          create_delete_directory_action c4TD] := by
  rw [(c3_restow_deletes_installed_state c4World (strL "pkg") c4Cfg c4PkgPath
    (by decide) (by decide)).1]
  rfl

/-- C4 counterexample: the delete-mode plan for a package containing
`d/f`, with `/t/d` a directory and `/t/d/f` the installed stow symlink, is
`[DeleteDirectory /t/d, DeleteSymlink /t/d/f]` — a `DeleteDirectory`
scheduled before a `DeleteSymlink` whose target lies beneath it, so the
claimed ordering fails for delete mode. -/
theorem c4_delete_plan_counterexample :
    (plan_delete_actions c4World (strL "pkg") c4Cfg ⟨[]⟩).map
        (fun acts => acts.map (fun a => a.action_type))
      = Except.ok [ActionType.deleteDirectory, ActionType.deleteSymlink]
    ∧ ¬ symsPrecedeDirs
        ((plan_delete_actions c4World (strL "pkg") c4Cfg ⟨[]⟩).toOption.getD []) := by
  constructor
  · rfl
  · intro h
    obtain ⟨hR, -⟩ := List.pairwise_cons.mp h
    exact hR _ (List.mem_singleton.mpr rfl) ⟨rfl, rfl⟩

/-- C4 (amended): deletion plans produced by restow mode are ordered so
that every `DeleteSymlink` precedes every `DeleteDirectory` (the stable
sort keeps each group in scan order); delete-mode plans are not
reordered. -/
theorem c4_restow_deletions_sorted (w : World) (package_name : Str)
    (config : Config) (cpkg : RPath)
    (hex : w.fsv.exists_path (pJoin config.stow_dir [PComp.normal package_name])
      = true)
    (hc : w.fsv.canonicalize (pJoin config.stow_dir [PComp.normal package_name])
      = CanonResult.ok cpkg)
    (acts : List TargetAction)
    (h : plan_restow_delete_actions w package_name config = Except.ok acts) :
    symsPrecedeDirs acts := by
  rw [plan_restow_char w package_name config cpkg hex hc] at h
  have hacts := Except.ok.inj h
  subst hacts
  unfold symsPrecedeDirs
  apply List.pairwise_append.mpr
  refine ⟨?_, ?_, ?_⟩
  · apply List.pairwise_of_forall_mem_list
    intro a ha b _
    obtain ⟨p, -, rfl⟩ := List.mem_map.mp ha
    intro hcontra
    exact absurd hcontra.1 (by simp [create_delete_symlink_action])
  · apply List.pairwise_of_forall_mem_list
    intro a _ b hb
    obtain ⟨p, -, rfl⟩ := List.mem_map.mp hb
    intro hcontra
    exact absurd hcontra.2 (by simp [create_delete_directory_action])
  · intro a ha b _
    obtain ⟨p, -, rfl⟩ := List.mem_map.mp ha
    intro hcontra
    exact absurd hcontra.1 (by simp [create_delete_symlink_action])

/-- C4 witness: the restow plan of the E7-style world satisfies the
symlinks-before-directories ordering. -/
theorem c4_restow_deletions_sorted_witness :
    symsPrecedeDirs [create_delete_symlink_action c4TDF,
      create_delete_directory_action c4TD] :=
  c4_restow_deletions_sorted c4World (strL "pkg") c4Cfg c4PkgPath
    (by decide) (by decide) _ rfl
